import Mathlib

/-!
Verification development for the AAS XML deserialization module
(`aas/adapter/xml/xml_deserialization.py`).

The decoder is embedded shallowly: the generic XML tree becomes an
inductive `Element`, Python exceptions become the inductive `PyError`
(`KeyError`/`ValueError` are the kinds caught by `_failsafe_construct`,
`TypeError`/`IndexError`/`RecursionError` propagate uncaught), the global
logger becomes an explicit list of `LogLine`s threaded through a writer
style monad `CRes`, and every `_construct_*` function of the source is
translated one to one.  Python recursion depth is modelled by an explicit
fuel parameter on the mutually recursive submodel-element constructors;
running out of fuel is the analogue of `RecursionError`, which Python
would raise in either parsing mode.

Collaborators of the module that are outside the sources under
verification (the `model` package, `model.datatypes`, the tag maps of
`adapter._generic` and the base64 decoder) are modelled from the
specification; each such definition carries a doc comment starting with
`Modelled from the spec:`.
-/

namespace AasXml

/-- A decoded XML tree node, the shape produced by
`xml.etree.ElementTree`: a tag, an attribute map, an optional text and an
ordered list of child nodes. -/
inductive Element where
  | mk (tag : String) (attrib : List (String × String)) (text : Option String)
       (children : List Element)
deriving Repr

def Element.tag : Element → String
  | .mk t _ _ _ => t

def Element.attrib : Element → List (String × String)
  | .mk _ a _ _ => a

def Element.text : Element → Option String
  | .mk _ _ t _ => t

def Element.children : Element → List Element
  | .mk _ _ _ c => c

/-- `ElementTree.Element.find`: the first direct child with the given tag,
if any. -/
def Element.find (el : Element) (tag : String) : Option Element :=
  el.children.find? (fun c => c.tag == tag)

/-- `ElementTree.Element.findall`: all direct children with the given tag,
in document order. -/
def Element.findall (el : Element) (tag : String) : List Element :=
  el.children.filter (fun c => c.tag == tag)

/-- Python exceptions as raised by the deserialization module, with their
`__cause__` chain (`raise ... from e`).  `keyError` and `valueError` are
the two kinds caught by `_failsafe_construct`; `typeError` (unexpected
top-level list, impossible-`None` bug guard), `indexError` (string index
out of range) and `recursionError` (exceeded recursion depth, our fuel)
are never caught by this module. -/
inductive PyError where
  | keyError (msg : String) (cause : Option PyError)
  | valueError (msg : String) (cause : Option PyError)
  | typeError (msg : String) (cause : Option PyError)
  | indexError (msg : String) (cause : Option PyError)
  | recursionError (msg : String) (cause : Option PyError)
deriving Repr

/-- `str(e)` after `_exception_to_str` (which strips the quotation marks
around a stringified `KeyError`): for every kind this is just the
message. -/
def PyError.pyStr : PyError → String
  | .keyError m _ => m
  | .valueError m _ => m
  | .typeError m _ => m
  | .indexError m _ => m
  | .recursionError m _ => m

/-- `type(e).__name__`. -/
def PyError.typeName : PyError → String
  | .keyError _ _ => "KeyError"
  | .valueError _ _ => "ValueError"
  | .typeError _ _ => "TypeError"
  | .indexError _ _ => "IndexError"
  | .recursionError _ _ => "RecursionError"

/-- `e.__cause__`. -/
def PyError.cause : PyError → Option PyError
  | .keyError _ c => c
  | .valueError _ c => c
  | .typeError _ c => c
  | .indexError _ c => c
  | .recursionError _ c => c

/-- `except (KeyError, ValueError)`: the only exceptions
`_failsafe_construct` intercepts. -/
def PyError.isCaught : PyError → Bool
  | .keyError _ _ => true
  | .valueError _ _ => true
  | _ => false

/-- `raise type(e)(error_message) from e`: a new exception of the same
type with the given message, whose cause is `e`. -/
def PyError.rewrap (e : PyError) (msg : String) : PyError :=
  match e with
  | .keyError _ _ => .keyError msg (some e)
  | .valueError _ _ => .valueError msg (some e)
  | .typeError _ _ => .typeError msg (some e)
  | .indexError _ _ => .indexError msg (some e)
  | .recursionError _ _ => .recursionError msg (some e)

/-- The `__cause__` chain of an exception, outermost first. -/
def PyError.causeChain : PyError → List PyError
  | .keyError m (some c) => .keyError m (some c) :: c.causeChain
  | .keyError m none => [.keyError m none]
  | .valueError m (some c) => .valueError m (some c) :: c.causeChain
  | .valueError m none => [.valueError m none]
  | .typeError m (some c) => .typeError m (some c) :: c.causeChain
  | .typeError m none => [.typeError m none]
  | .indexError m (some c) => .indexError m (some c) :: c.causeChain
  | .indexError m none => [.indexError m none]
  | .recursionError m (some c) => .recursionError m (some c) :: c.causeChain
  | .recursionError m none => [.recursionError m none]

/-- One line sent to the logging collaborator, with its level. -/
inductive LogLine where
  | error (msg : String)
  | warning (msg : String)
deriving Repr, DecidableEq

/-- The result of running a piece of the decoder: a value or a Python
exception, together with everything written to the log on the way
(Python's logger is global state, so log lines survive an escaping
exception). -/
def CRes (T : Type) : Type := Except PyError T × List LogLine

def cresPure {T : Type} (v : T) : CRes T := (Except.ok v, [])

def cresBind {A B : Type} (a : CRes A) (f : A → CRes B) : CRes B :=
  match a with
  | (Except.ok x, l1) =>
    match f x with
    | (r, l2) => (r, l1 ++ l2)
  | (Except.error e, l1) => (Except.error e, l1)

instance : Monad CRes where
  pure := cresPure
  bind := cresBind

/-- Raise an exception (no log output). -/
def raiseErr {T : Type} (e : PyError) : CRes T := (Except.error e, [])

/-- `logger.warning(msg)`. -/
def logWarning (msg : String) : CRes Unit := (Except.ok (), [LogLine.warning msg])

/-- `logger.error(msg)`. -/
def logError (msg : String) : CRes Unit := (Except.ok (), [LogLine.error msg])

theorem cres_bind_def {A B : Type} (a : CRes A) (f : A → CRes B) :
    a >>= f = cresBind a f := rfl

theorem cres_pure_def {A : Type} (v : A) :
    (pure v : CRes A) = (Except.ok v, []) := rfl

theorem cresBind_ok {A B : Type} (x : A) (l1 : List LogLine) (f : A → CRes B) :
    cresBind (Except.ok x, l1) f = ((f x).1, l1 ++ (f x).2) := by
  rcases h : f x with ⟨r, l2⟩
  simp [cresBind, h]

theorem cresBind_error {A B : Type} (e : PyError) (l1 : List LogLine) (f : A → CRes B) :
    cresBind (Except.error e, l1) f = (Except.error e, l1) := rfl

/-- Lift a log-free computation into `CRes`. -/
def liftE {T : Type} (r : Except PyError T) : CRes T := (r, [])

/-! ## Namespace constants (from `xml_serialization`, values fixed by the
official format; the AAS namespace also appears verbatim in the module
docstring of the source). -/

def NS_AAS : String := "\x7bhttp://www.admin-shell.io/aas/2/0\x7d"

def NS_ABAC : String := "\x7bhttp://www.admin-shell.io/aas/abac/2/0\x7d"

def NS_IEC : String := "\x7bhttp://www.admin-shell.io/IEC61360/2/0\x7d"

/-! ## Field extractor primitives (`_get_*` helpers of the source). -/

/-- `_get_child_mandatory`. -/
def get_child_mandatory (parent : Element) (child_tag : String) : CRes Element :=
  match parent.find child_tag with
  | none => raiseErr (.keyError
      ("XML element " ++ parent.tag ++ " has no child " ++ child_tag ++ "!") none)
  | some child => pure child

/-- `_get_attrib_mandatory`. -/
def get_attrib_mandatory (element : Element) (attrib : String) : CRes String :=
  match element.attrib.lookup attrib with
  | none => raiseErr (.keyError
      ("XML element " ++ element.tag ++ " has no attribute with name " ++ attrib ++ "!") none)
  | some v => pure v

/-- `_get_attrib_mandatory_mapped`. -/
def get_attrib_mandatory_mapped {T : Type} (element : Element) (attrib : String)
    (dct : List (String × T)) : CRes T := do
  let attrib_value ← get_attrib_mandatory element attrib
  match dct.lookup attrib_value with
  | none => raiseErr (.valueError
      ("Attribute " ++ attrib ++ " of XML element " ++ element.tag ++
       " has invalid value: " ++ attrib_value) none)
  | some v => pure v

/-- `_get_text_or_none`. -/
def get_text_or_none (element : Option Element) : Option String :=
  match element with
  | none => none
  | some el => el.text

/-- `_get_text_mandatory`. -/
def get_text_mandatory (element : Element) : CRes String :=
  match element.text with
  | none => raiseErr (.keyError ("XML element " ++ element.tag ++ " has no text!") none)
  | some text => pure text

/-- `_get_text_mandatory_mapped`. -/
def get_text_mandatory_mapped {T : Type} (element : Element)
    (dct : List (String × T)) : CRes T := do
  let text ← get_text_mandatory element
  match dct.lookup text with
  | none => raiseErr (.valueError
      ("Text of XML element " ++ element.tag ++ " is invalid: " ++ text) none)
  | some v => pure v

/-! ## The failsafe construction wrapper family.

In the source the type name in error messages is derived from the
constructor function's name (`_constructor_name_to_typename`); here the
corresponding name is passed explicitly at every call site. -/

/-- The causal trace rendered by `_failsafe_construct` in failsafe mode:
starting from the frame message, the loop prepends `str(cause)` for every
link of the `__cause__` chain, so the innermost cause ends up first. -/
def renderTrace (e : PyError) (frame : String) : String :=
  e.causeChain.foldl (fun acc c => c.pyStr ++ "\n -> " ++ acc) frame

/-- `_failsafe_construct`. -/
def failsafe_construct {T : Type} (element : Option Element)
    (constructor : Element → Bool → CRes T) (type_name : String) (failsafe : Bool) :
    CRes (Option T) :=
  match element with
  | none => pure none
  | some el =>
    match constructor el failsafe with
    | (Except.ok v, logs) => (Except.ok (some v), logs)
    | (Except.error e, logs) =>
      if e.isCaught then
        let error_message := "while converting XML element with tag " ++ el.tag ++
                             " to type " ++ type_name
        if !failsafe then
          (Except.error (e.rewrap error_message), logs)
        else
          (Except.ok none,
           logs ++ [LogLine.error (e.typeName ++ ": " ++ renderTrace e error_message),
                    LogLine.error ("Failed to construct " ++ type_name ++ "!")])
      else
        (Except.error e, logs)

/-- `_failsafe_construct_mandatory`: `_failsafe_construct` forced to
non-failsafe mode; a `None` result is an internal-consistency bug guarded
by a `TypeError` (unreachable, kept faithfully). -/
def failsafe_construct_mandatory {T : Type} (element : Element)
    (constructor : Element → Bool → CRes T) (type_name : String) : CRes T :=
  match failsafe_construct (some element) constructor type_name false with
  | (Except.ok (some v), logs) => (Except.ok v, logs)
  | (Except.ok none, logs) =>
    (Except.error (.typeError
      ("The result of a non-failsafe _failsafe_construct() call was None! " ++
       "This is a bug in the pyAAS XML deserialization, please report it!") none), logs)
  | (Except.error e, logs) => (Except.error e, logs)

/-- `_failsafe_construct_multiple`, consumed eagerly (every caller of the
source's generator drains it in a `for` loop performing pure
accumulation, except the document driver, whose interleaving with the
object store is modelled separately). -/
def failsafe_construct_multiple {T : Type} (elements : List Element)
    (constructor : Element → Bool → CRes T) (type_name : String) (failsafe : Bool) :
    CRes (List T) :=
  match elements with
  | [] => pure []
  | element :: rest => do
    let parsed ← failsafe_construct (some element) constructor type_name failsafe
    let restParsed ← failsafe_construct_multiple rest constructor type_name failsafe
    match parsed with
    | some v => pure (v :: restParsed)
    | none => pure restParsed

/-- `_child_construct_mandatory`. -/
def child_construct_mandatory {T : Type} (parent : Element) (child_tag : String)
    (constructor : Element → Bool → CRes T) (type_name : String) : CRes T := do
  let child ← get_child_mandatory parent child_tag
  failsafe_construct_mandatory child constructor type_name

/-- `_child_text_mandatory`. -/
def child_text_mandatory (parent : Element) (child_tag : String) : CRes String := do
  let child ← get_child_mandatory parent child_tag
  get_text_mandatory child

/-- `_child_text_mandatory_mapped`. -/
def child_text_mandatory_mapped {T : Type} (parent : Element) (child_tag : String)
    (dct : List (String × T)) : CRes T := do
  let child ← get_child_mandatory parent child_tag
  get_text_mandatory_mapped child dct

/-! ## Enumerations and tag maps.

Modelled from the spec: the enumerations live in the `model` package and
the inverse string maps in `adapter._generic`, neither of which is among
the sources; member and string names follow the official AAS 2.0 tag
vocabulary referenced by the spec (§3, §6). -/

/-- Modelled from the spec: the Template/Instance "kind" tag (§3). -/
inductive ModelingKind where
  | TEMPLATE
  | INSTANCE
deriving Repr, DecidableEq

def MODELING_KIND_INVERSE : List (String × ModelingKind) :=
  [("Template", .TEMPLATE), ("Instance", .INSTANCE)]

/-- Modelled from the spec: the asset kind enumeration (§4.4). -/
inductive AssetKind where
  | TYPE
  | INSTANCE
deriving Repr, DecidableEq

def ASSET_KIND_INVERSE : List (String × AssetKind) :=
  [("Type", .TYPE), ("Instance", .INSTANCE)]

/-- Modelled from the spec: Identifier kinds (§3: `enum{IRI, Custom, …}`). -/
inductive IdentifierType where
  | IRDI
  | IRI
  | CUSTOM
deriving Repr, DecidableEq

def IDENTIFIER_TYPES_INVERSE : List (String × IdentifierType) :=
  [("IRDI", .IRDI), ("IRI", .IRI), ("Custom", .CUSTOM)]

/-- Modelled from the spec: Key id-type enumeration (§3). -/
inductive KeyType where
  | IRDI
  | IRI
  | CUSTOM
  | IDSHORT
  | FRAGMENT_ID
deriving Repr, DecidableEq

def KEY_TYPES_INVERSE : List (String × KeyType) :=
  [("IRDI", .IRDI), ("IRI", .IRI), ("Custom", .CUSTOM), ("IdShort", .IDSHORT),
   ("FragmentId", .FRAGMENT_ID)]

/-- Modelled from the spec: the entity-type enumeration (§4.4). -/
inductive EntityType where
  | CO_MANAGED_ENTITY
  | SELF_MANAGED_ENTITY
deriving Repr, DecidableEq

def ENTITY_TYPES_INVERSE : List (String × EntityType) :=
  [("CoManagedEntity", .CO_MANAGED_ENTITY), ("SelfManagedEntity", .SELF_MANAGED_ENTITY)]

/-- Modelled from the spec: the `type` enumeration of a Key, "enum of ~20
element kinds" (§3). -/
inductive KeyElements where
  | ASSET
  | ASSET_ADMINISTRATION_SHELL
  | CONCEPT_DESCRIPTION
  | SUBMODEL
  | ACCESS_PERMISSION_RULE
  | ANNOTATED_RELATIONSHIP_ELEMENT
  | BASIC_EVENT
  | BLOB
  | CAPABILITY
  | CONCEPT_DICTIONARY
  | DATA_ELEMENT
  | ENTITY
  | EVENT
  | FILE
  | MULTI_LANGUAGE_PROPERTY
  | OPERATION
  | PROPERTY
  | RANGE
  | REFERENCE_ELEMENT
  | RELATIONSHIP_ELEMENT
  | SUBMODEL_ELEMENT
  | SUBMODEL_ELEMENT_COLLECTION
  | VIEW
  | GLOBAL_REFERENCE
  | FRAGMENT_REFERENCE
deriving Repr, DecidableEq

def KEY_ELEMENTS_INVERSE : List (String × KeyElements) :=
  [("Asset", .ASSET), ("AssetAdministrationShell", .ASSET_ADMINISTRATION_SHELL),
   ("ConceptDescription", .CONCEPT_DESCRIPTION), ("Submodel", .SUBMODEL),
   ("AccessPermissionRule", .ACCESS_PERMISSION_RULE),
   ("AnnotatedRelationshipElement", .ANNOTATED_RELATIONSHIP_ELEMENT),
   ("BasicEvent", .BASIC_EVENT), ("Blob", .BLOB), ("Capability", .CAPABILITY),
   ("ConceptDictionary", .CONCEPT_DICTIONARY), ("DataElement", .DATA_ELEMENT),
   ("Entity", .ENTITY), ("Event", .EVENT), ("File", .FILE),
   ("MultiLanguageProperty", .MULTI_LANGUAGE_PROPERTY), ("Operation", .OPERATION),
   ("Property", .PROPERTY), ("Range", .RANGE), ("ReferenceElement", .REFERENCE_ELEMENT),
   ("RelationshipElement", .RELATIONSHIP_ELEMENT), ("SubmodelElement", .SUBMODEL_ELEMENT),
   ("SubmodelElementCollection", .SUBMODEL_ELEMENT_COLLECTION), ("View", .VIEW),
   ("GlobalReference", .GLOBAL_REFERENCE), ("FragmentReference", .FRAGMENT_REFERENCE)]

/-- Python enum `.name` of a `KeyElements` member, used in the soft
type-check warning. -/
def KeyElements.name : KeyElements → String
  | .ASSET => "ASSET"
  | .ASSET_ADMINISTRATION_SHELL => "ASSET_ADMINISTRATION_SHELL"
  | .CONCEPT_DESCRIPTION => "CONCEPT_DESCRIPTION"
  | .SUBMODEL => "SUBMODEL"
  | .ACCESS_PERMISSION_RULE => "ACCESS_PERMISSION_RULE"
  | .ANNOTATED_RELATIONSHIP_ELEMENT => "ANNOTATED_RELATIONSHIP_ELEMENT"
  | .BASIC_EVENT => "BASIC_EVENT"
  | .BLOB => "BLOB"
  | .CAPABILITY => "CAPABILITY"
  | .CONCEPT_DICTIONARY => "CONCEPT_DICTIONARY"
  | .DATA_ELEMENT => "DATA_ELEMENT"
  | .ENTITY => "ENTITY"
  | .EVENT => "EVENT"
  | .FILE => "FILE"
  | .MULTI_LANGUAGE_PROPERTY => "MULTI_LANGUAGE_PROPERTY"
  | .OPERATION => "OPERATION"
  | .PROPERTY => "PROPERTY"
  | .RANGE => "RANGE"
  | .REFERENCE_ELEMENT => "REFERENCE_ELEMENT"
  | .RELATIONSHIP_ELEMENT => "RELATIONSHIP_ELEMENT"
  | .SUBMODEL_ELEMENT => "SUBMODEL_ELEMENT"
  | .SUBMODEL_ELEMENT_COLLECTION => "SUBMODEL_ELEMENT_COLLECTION"
  | .VIEW => "VIEW"
  | .GLOBAL_REFERENCE => "GLOBAL_REFERENCE"
  | .FRAGMENT_REFERENCE => "FRAGMENT_REFERENCE"

/-- Modelled from the spec: the categories a typed reference can be
tagged with, i.e. the model classes of the `model` package that appear as
reference targets, with their inheritance (§3 capability traits, §4.4
"typed to the generic referable category", "data-element-typed"). -/
inductive ModelClass where
  | Referable
  | Identifiable
  | Submodel
  | Asset
  | AssetAdministrationShell
  | ConceptDescription
  | SubmodelElement
  | DataElement
  | Property
  | Range
  | Blob
  | File
  | MultiLanguageProperty
  | ReferenceElement
  | RelationshipElement
  | AnnotatedRelationshipElement
  | Operation
  | Capability
  | Entity
  | Event
  | BasicEvent
  | SubmodelElementCollection
  | ConceptDictionary
  | View
deriving Repr, DecidableEq

/-- Python `__name__` of a model class. -/
def ModelClass.className : ModelClass → String
  | .Referable => "Referable"
  | .Identifiable => "Identifiable"
  | .Submodel => "Submodel"
  | .Asset => "Asset"
  | .AssetAdministrationShell => "AssetAdministrationShell"
  | .ConceptDescription => "ConceptDescription"
  | .SubmodelElement => "SubmodelElement"
  | .DataElement => "DataElement"
  | .Property => "Property"
  | .Range => "Range"
  | .Blob => "Blob"
  | .File => "File"
  | .MultiLanguageProperty => "MultiLanguageProperty"
  | .ReferenceElement => "ReferenceElement"
  | .RelationshipElement => "RelationshipElement"
  | .AnnotatedRelationshipElement => "AnnotatedRelationshipElement"
  | .Operation => "Operation"
  | .Capability => "Capability"
  | .Entity => "Entity"
  | .Event => "Event"
  | .BasicEvent => "BasicEvent"
  | .SubmodelElementCollection => "SubmodelElementCollection"
  | .ConceptDictionary => "ConceptDictionary"
  | .View => "View"

/-- Modelled from the spec: the superclass chain of each model class,
itself included (every entity kind is Referable; data elements specialize
SubmodelElement; the four top-level kinds are Identifiable, §3). -/
def ModelClass.ancestors : ModelClass → List ModelClass
  | .Referable => [.Referable]
  | .Identifiable => [.Identifiable, .Referable]
  | .Submodel => [.Submodel, .Identifiable, .Referable]
  | .Asset => [.Asset, .Identifiable, .Referable]
  | .AssetAdministrationShell => [.AssetAdministrationShell, .Identifiable, .Referable]
  | .ConceptDescription => [.ConceptDescription, .Identifiable, .Referable]
  | .SubmodelElement => [.SubmodelElement, .Referable]
  | .DataElement => [.DataElement, .SubmodelElement, .Referable]
  | .Property => [.Property, .DataElement, .SubmodelElement, .Referable]
  | .Range => [.Range, .DataElement, .SubmodelElement, .Referable]
  | .Blob => [.Blob, .DataElement, .SubmodelElement, .Referable]
  | .File => [.File, .DataElement, .SubmodelElement, .Referable]
  | .MultiLanguageProperty => [.MultiLanguageProperty, .DataElement, .SubmodelElement, .Referable]
  | .ReferenceElement => [.ReferenceElement, .DataElement, .SubmodelElement, .Referable]
  | .RelationshipElement => [.RelationshipElement, .SubmodelElement, .Referable]
  | .AnnotatedRelationshipElement =>
    [.AnnotatedRelationshipElement, .RelationshipElement, .SubmodelElement, .Referable]
  | .Operation => [.Operation, .SubmodelElement, .Referable]
  | .Capability => [.Capability, .SubmodelElement, .Referable]
  | .Entity => [.Entity, .SubmodelElement, .Referable]
  | .Event => [.Event, .SubmodelElement, .Referable]
  | .BasicEvent => [.BasicEvent, .Event, .SubmodelElement, .Referable]
  | .SubmodelElementCollection => [.SubmodelElementCollection, .SubmodelElement, .Referable]
  | .ConceptDictionary => [.ConceptDictionary, .Referable]
  | .View => [.View, .Referable]

/-- Python `issubclass(c, t)`. -/
def ModelClass.isSubclassOf (c t : ModelClass) : Bool :=
  c.ancestors.contains t

/-- Modelled from the spec: `KEY_ELEMENTS_CLASSES_INVERSE` — the model
class denoted by a key-element kind; kinds without a class (such as
`GlobalReference`) map to nothing, which makes the soft check fail
(`issubclass(type(None), t)` is false, §3 TypedReference). -/
def KEY_ELEMENTS_CLASSES_INVERSE : KeyElements → Option ModelClass
  | .ASSET => some .Asset
  | .ASSET_ADMINISTRATION_SHELL => some .AssetAdministrationShell
  | .CONCEPT_DESCRIPTION => some .ConceptDescription
  | .SUBMODEL => some .Submodel
  | .ACCESS_PERMISSION_RULE => none
  | .ANNOTATED_RELATIONSHIP_ELEMENT => some .AnnotatedRelationshipElement
  | .BASIC_EVENT => some .BasicEvent
  | .BLOB => some .Blob
  | .CAPABILITY => some .Capability
  | .CONCEPT_DICTIONARY => some .ConceptDictionary
  | .DATA_ELEMENT => some .DataElement
  | .ENTITY => some .Entity
  | .EVENT => some .Event
  | .FILE => some .File
  | .MULTI_LANGUAGE_PROPERTY => some .MultiLanguageProperty
  | .OPERATION => some .Operation
  | .PROPERTY => some .Property
  | .RANGE => some .Range
  | .REFERENCE_ELEMENT => some .ReferenceElement
  | .RELATIONSHIP_ELEMENT => some .RelationshipElement
  | .SUBMODEL_ELEMENT => some .SubmodelElement
  | .SUBMODEL_ELEMENT_COLLECTION => some .SubmodelElementCollection
  | .VIEW => some .View
  | .GLOBAL_REFERENCE => none
  | .FRAGMENT_REFERENCE => none

/-! ## XSD scalar values (`model.datatypes`). -/

/-- Modelled from the spec: the "enum of XSD scalar types" (§3); a
representative subset of the keys of `model.datatypes.XSD_TYPE_CLASSES`. -/
inductive XsdType where
  | string
  | boolean
  | int
  | integer
  | double
deriving Repr, DecidableEq

def XSD_TYPE_CLASSES : List (String × XsdType) :=
  [("string", .string), ("boolean", .boolean), ("int", .int), ("integer", .integer),
   ("double", .double)]

/-- Modelled from the spec: a typed scalar value (§3 Qualifier); doubles
keep their lexeme, only its lexical validity matters here. -/
inductive XsdValue where
  | str (s : String)
  | boolean (b : Bool)
  | int (i : Int)
  | double (lexeme : String)
deriving Repr, DecidableEq

def digits1 (cs : List Char) : Bool :=
  !cs.isEmpty && cs.all Char.isDigit

def mantissaOk (cs : List Char) : Bool :=
  let p := cs.span (fun c => c != '.')
  match p.2 with
  | [] => digits1 p.1
  | _ :: frac =>
    p.1.all Char.isDigit && frac.all Char.isDigit && (!p.1.isEmpty || !frac.isEmpty)

def stripSign (cs : List Char) : List Char :=
  match cs with
  | '+' :: r => r
  | '-' :: r => r
  | r => r

/-- Lexical form of an XSD double (Python `float(...)` acceptance,
restricted to plain decimal and exponent forms). -/
def isDoubleLexical (s : String) : Bool :=
  let cs := stripSign s.data
  let p := cs.span (fun c => c != 'e' && c != 'E')
  match p.2 with
  | [] => mantissaOk p.1
  | _ :: expPart => mantissaOk p.1 && digits1 (stripSign expPart)

def natOfDigits : List Char → Nat → Nat
  | [], acc => acc
  | c :: r, acc => natOfDigits r (acc * 10 + (c.toNat - 48))

/-- Modelled from the spec: Python `int(value)` lexical acceptance — an
optional sign followed by one or more decimal digits. -/
def pyInt (s : String) : Option Int :=
  match s.data with
  | '-' :: r => if digits1 r then some (-(Int.ofNat (natOfDigits r 0))) else none
  | '+' :: r => if digits1 r then some (Int.ofNat (natOfDigits r 0)) else none
  | cs => if digits1 cs then some (Int.ofNat (natOfDigits cs 0)) else none

/-- Modelled from the spec: `model.datatypes.from_xsd` — parse a text
"according to the declared value-type's lexical rules" (§4.4); a
lexically invalid text raises `ValueError`, exactly like an enumeration
miss would. -/
def from_xsd (value : String) (ty : XsdType) : Except PyError XsdValue :=
  match ty with
  | .string => .ok (.str value)
  | .boolean =>
    if value = "true" || value = "1" then .ok (.boolean true)
    else if value = "false" || value = "0" then .ok (.boolean false)
    else .error (.valueError ("Invalid literal for xsd:boolean: " ++ value) none)
  | .int =>
    match pyInt value with
    | some i => .ok (.int i)
    | none => .error (.valueError ("invalid literal for int() with base 10: " ++ value) none)
  | .integer =>
    match pyInt value with
    | some i => .ok (.int i)
    | none => .error (.valueError ("invalid literal for int() with base 10: " ++ value) none)
  | .double =>
    if isDoubleLexical value then .ok (.double value)
    else .error (.valueError ("could not convert string to float: " ++ value) none)

/-! ## Base64 (`base64.b64decode`, Python standard library).  Raises
`binascii.Error`, a subclass of `ValueError`. -/

def b64CharVal (c : Char) : Option Nat :=
  if 'A' ≤ c ∧ c ≤ 'Z' then some (c.toNat - 65)
  else if 'a' ≤ c ∧ c ≤ 'z' then some (c.toNat - 97 + 26)
  else if '0' ≤ c ∧ c ≤ '9' then some (c.toNat - 48 + 52)
  else if c = '+' then some 62
  else if c = '/' then some 63
  else none

def b64decodeBlocks : List Char → Except PyError (List Nat)
  | [] => .ok []
  | c1 :: c2 :: c3 :: c4 :: rest =>
    match b64CharVal c1, b64CharVal c2 with
    | some v1, some v2 =>
      if c3 = '=' then
        if c4 = '=' ∧ rest = [] then .ok [v1 * 4 + v2 / 16]
        else .error (.valueError "Invalid base64-encoded string" none)
      else
        match b64CharVal c3 with
        | some v3 =>
          if c4 = '=' then
            if rest = [] then .ok [v1 * 4 + v2 / 16, (v2 % 16) * 16 + v3 / 4]
            else .error (.valueError "Invalid base64-encoded string" none)
          else
            match b64CharVal c4 with
            | some v4 =>
              match b64decodeBlocks rest with
              | .ok bytes =>
                .ok ((v1 * 4 + v2 / 16) :: ((v2 % 16) * 16 + v3 / 4) ::
                     ((v3 % 4) * 64 + v4) :: bytes)
              | .error e => .error e
            | none => .error (.valueError "Invalid base64-encoded string" none)
        | none => .error (.valueError "Invalid base64-encoded string" none)
    | _, _ => .error (.valueError "Invalid base64-encoded string" none)
  | _ => .error (.valueError "Invalid padding" none)

/-- `base64.b64decode` with default (non-validating) behavior: characters
outside the alphabet are discarded, then the length must be a multiple of
four with `=` only as final padding. -/
def b64decode (s : String) : Except PyError (List Nat) :=
  b64decodeBlocks (s.data.filter (fun c => (b64CharVal c).isSome || c == '='))

/-! ## The decoded object model.

Modelled from the spec (§3): the `model` package is not among the
sources.  Python sets with an `add` method are modelled as
insertion-ordered lists; `LangStringSet` keeps dict semantics (unique
keys, last occurrence wins). -/

/-- Modelled from the spec: `(value, kind)` identity key (§3). -/
structure Identifier where
  id : String
  id_type : IdentifierType
deriving Repr, DecidableEq

/-- Modelled from the spec: one segment of a path-like reference (§3). -/
structure Key where
  type : KeyElements
  is_local : Bool
  value : String
  id_type : KeyType
deriving Repr, DecidableEq

/-- Spec-modelled `str(Key)` for the soft-check warning text. -/
def Key.pyStr (k : Key) : String :=
  "Key(" ++ k.type.name ++ ", " ++ k.value ++ ")"

/-- Modelled from the spec: ordered sequence of Key (§3). -/
structure Reference where
  key : List Key
deriving Repr, DecidableEq

/-- Modelled from the spec: a Reference tagged with an expected target
category (§3 TypedReference). -/
structure AASReference where
  key : List Key
  type : ModelClass
deriving Repr, DecidableEq

/-- Modelled from the spec: optional version/revision strings (§3). -/
structure AdministrativeInformation where
  version : Option String
  revision : Option String
deriving Repr, DecidableEq

/-- Modelled from the spec: language tag to localized text, unique keys,
last occurrence wins (§3). -/
def LangStringSet : Type := List (String × String)

instance : Repr LangStringSet := inferInstanceAs (Repr (List (String × String)))

instance : DecidableEq LangStringSet := inferInstanceAs (DecidableEq (List (String × String)))

/-- Python dict assignment `lss[lang] = text`: replace in place or
append. -/
def lssInsert (lss : LangStringSet) (lang text : String) : LangStringSet :=
  match lss with
  | [] => [(lang, text)]
  | (l, t) :: rest =>
    if l = lang then (l, text) :: rest else (l, t) :: lssInsert rest lang text

/-- Modelled from the spec: constraint variant Qualifier (§3); carries a
semantic reference amendable through the HasSemantics trait. -/
structure Qualifier where
  type : String
  value_type : XsdType
  value : Option XsdValue
  value_id : Option Reference
  semantic_id : Option Reference
deriving Repr, DecidableEq

/-- Modelled from the spec: constraint variant Formula (§3). -/
structure Formula where
  depends_on : List Reference
deriving Repr, DecidableEq

/-- Modelled from the spec: qualifier-or-formula constraint (§3). -/
inductive Constraint where
  | qualifier (q : Qualifier)
  | formula (f : Formula)
deriving Repr, DecidableEq

/-- The capability-trait fields shared by every submodel element:
Referable (category, description), HasKind, HasSemantics, Qualifiable
(§3). -/
structure SMEData where
  id_short : String
  kind : ModelingKind
  category : Option String
  description : Option LangStringSet
  semantic_id : Option Reference
  qualifier : List Constraint
deriving Repr, DecidableEq

/-- Fresh trait data as produced by a model-class `__init__` call:
amendable fields start empty, the kind defaults to Instance when no
`kind` element was present (modelled from the spec §3: optional
Template/Instance tag). -/
def mkSME (id_short : String) (kind : Option ModelingKind) : SMEData :=
  ⟨id_short, kind.getD .INSTANCE, none, none, none, []⟩

/-- Modelled from the spec: security stub. -/
inductive Security where
  | mk
deriving Repr, DecidableEq

mutual
/-- Modelled from the spec: the closed variant type with 13 alternatives
(§3). -/
inductive SubmodelElement where
  | property (common : SMEData) (value_type : XsdType) (value : Option XsdValue)
      (value_id : Option Reference)
  | range (common : SMEData) (value_type : XsdType) (min : Option XsdValue)
      (max : Option XsdValue)
  | blob (common : SMEData) (mime_type : String) (value : Option (List Nat))
  | file (common : SMEData) (mime_type : String) (value : Option String)
  | multiLanguageProperty (common : SMEData) (value : Option LangStringSet)
      (value_id : Option Reference)
  | referenceElement (common : SMEData) (value : Option AASReference)
  | relationshipElement (common : SMEData) (first : AASReference) (second : AASReference)
  | annotatedRelationshipElement (common : SMEData) (first : AASReference)
      (second : AASReference) ( annotation : List AASReference)
  | operation (common : SMEData) (input_variable : List OperationVariable)
      (output_variable : List OperationVariable)
      (in_output_variable : List OperationVariable)
  | capability (common : SMEData)
  | entity (common : SMEData) (entity_type : EntityType)
      (statement : List SubmodelElement) (asset : Option AASReference)
  | basicEvent (common : SMEData) (observed : AASReference)
  | submodelElementCollection (common : SMEData) (ordered : Bool)
      (value : List SubmodelElement)

/-- Modelled from the spec: wrapper holding exactly one submodel element
(§4.4 Operation). -/
inductive OperationVariable where
  | mk (value : SubmodelElement)
end

/-- The trait data of a submodel element. -/
def SubmodelElement.common : SubmodelElement → SMEData
  | .property c _ _ _ => c
  | .range c _ _ _ => c
  | .blob c _ _ => c
  | .file c _ _ => c
  | .multiLanguageProperty c _ _ => c
  | .referenceElement c _ => c
  | .relationshipElement c _ _ => c
  | .annotatedRelationshipElement c _ _ _ => c
  | .operation c _ _ _ => c
  | .capability c => c
  | .entity c _ _ _ => c
  | .basicEvent c _ => c
  | .submodelElementCollection c _ _ => c

/-- Rewrite the trait data of a submodel element (the amendment step
mutates these fields in place). -/
def SubmodelElement.mapCommon (f : SMEData → SMEData) : SubmodelElement → SubmodelElement
  | .property c a b d => .property (f c) a b d
  | .range c a b d => .range (f c) a b d
  | .blob c a b => .blob (f c) a b
  | .file c a b => .file (f c) a b
  | .multiLanguageProperty c a b => .multiLanguageProperty (f c) a b
  | .referenceElement c a => .referenceElement (f c) a
  | .relationshipElement c a b => .relationshipElement (f c) a b
  | .annotatedRelationshipElement c a b d => .annotatedRelationshipElement (f c) a b d
  | .operation c a b d => .operation (f c) a b d
  | .capability c => .capability (f c)
  | .entity c a b d => .entity (f c) a b d
  | .basicEvent c a => .basicEvent (f c) a
  | .submodelElementCollection c a b => .submodelElementCollection (f c) a b

/-- Modelled from the spec: a named collection of typed references to
elements (§3, §4.4 AssetAdministrationShell); Referable + HasSemantics. -/
structure View where
  id_short : String
  contained_element : List AASReference
  category : Option String
  description : Option LangStringSet
  semantic_id : Option Reference
deriving Repr, DecidableEq

/-- Modelled from the spec: a named set of concept-description
references (§3); Referable. -/
structure ConceptDictionary where
  id_short : String
  concept_description : List AASReference
  category : Option String
  description : Option LangStringSet
deriving Repr, DecidableEq

/-- Modelled from the spec: top-level shell (§3); Identifiable. -/
structure AssetAdministrationShell where
  asset : AASReference
  identification : Identifier
  id_short : String
  category : Option String
  description : Option LangStringSet
  administration : Option AdministrativeInformation
  security : Option Security
  submodel : List AASReference
  view : List View
  concept_dictionary : List ConceptDictionary
  derived_from : Option AASReference
deriving Repr, DecidableEq

/-- Modelled from the spec: top-level asset (§3); Identifiable. -/
structure Asset where
  kind : AssetKind
  identification : Identifier
  id_short : String
  category : Option String
  description : Option LangStringSet
  administration : Option AdministrativeInformation
  asset_identification_model : Option AASReference
  bill_of_material : Option AASReference
deriving Repr, DecidableEq

/-- Modelled from the spec: top-level submodel (§3); Identifiable,
HasKind, HasSemantics, Qualifiable. -/
structure Submodel where
  identification : Identifier
  submodel_element : List SubmodelElement
  kind : ModelingKind
  id_short : String
  category : Option String
  description : Option LangStringSet
  administration : Option AdministrativeInformation
  semantic_id : Option Reference
  qualifier : List Constraint

/-- Modelled from the spec: top-level concept description (§3);
Identifiable. -/
structure ConceptDescription where
  identification : Identifier
  is_case_of : List Reference
  id_short : String
  category : Option String
  description : Option LangStringSet
  administration : Option AdministrativeInformation
deriving Repr, DecidableEq

/-- A top-level Identifiable entity, as stored in the object
collection. -/
inductive TopLevel where
  | shell (a : AssetAdministrationShell)
  | asset (a : Asset)
  | submodel (s : Submodel)
  | conceptDescription (c : ConceptDescription)

/-- The Identifier keying a top-level entity (§3 Object Collection). -/
def TopLevel.identification : TopLevel → Identifier
  | .shell a => a.identification
  | .asset a => a.identification
  | .submodel s => s.identification
  | .conceptDescription c => c.identification

/-- Python `str.lower()` (ASCII as used by the format). -/
def pyLower (s : String) : String := String.mk (s.data.map Char.toLower)

/-! ## Simple constructor functions (no recursion through submodel
elements). -/

/-- `_construct_key`; the `local` attribute accepts any string, it is
true exactly when the value lowercases to `"true"`. -/
def construct_key (element : Element) (_failsafe : Bool) : CRes Key := do
  let ty ← get_attrib_mandatory_mapped element "type" KEY_ELEMENTS_INVERSE
  let lcl ← get_attrib_mandatory element "local"
  let value ← get_text_mandatory element
  let idt ← get_attrib_mandatory_mapped element "idType" KEY_TYPES_INVERSE
  pure ⟨ty, pyLower lcl == "true", value, idt⟩

/-- `_construct_key_tuple`. -/
def construct_key_tuple (element : Element) (failsafe : Bool) : CRes (List Key) := do
  let keys ← get_child_mandatory element (NS_AAS ++ "keys")
  failsafe_construct_multiple (keys.findall (NS_AAS ++ "key")) construct_key "Key" failsafe

/-- `_construct_reference`. -/
def construct_reference (element : Element) (failsafe : Bool) : CRes Reference := do
  let keys ← construct_key_tuple element failsafe
  pure ⟨keys⟩

/-- The condition of the soft type-check of `_construct_aas_reference`:
`len(keys) != 0 and not issubclass(KEY_ELEMENTS_CLASSES_INVERSE.get(keys[-1].type,
type(None)), type_)`. -/
def lastKeyTypeMismatch (keys : List Key) (type_ : ModelClass) : Bool :=
  match keys.getLast? with
  | none => false
  | some k =>
    match KEY_ELEMENTS_CLASSES_INVERSE k.type with
    | some c => !(c.isSubclassOf type_)
    | none => true

/-- The warning text of the soft type-check. -/
def aas_reference_warning (keys : List Key) (type_ : ModelClass) : String :=
  "Type " ++ (match keys.getLast? with | some k => k.type.name | none => "") ++
  " of last key of reference to " ++ String.intercalate " / " (keys.map Key.pyStr) ++
  " does not match reference type " ++ type_.className

/-- `_construct_aas_reference`: the incompatibility of the last key only
warns, construction always proceeds. -/
def construct_aas_reference (element : Element) (failsafe : Bool) (type_ : ModelClass) :
    CRes AASReference := do
  let keys ← construct_key_tuple element failsafe
  if lastKeyTypeMismatch keys type_ then logWarning (aas_reference_warning keys type_)
  else pure ()
  pure ⟨keys, type_⟩

/-- `_construct_submodel_reference`. -/
def construct_submodel_reference (element : Element) (failsafe : Bool) : CRes AASReference :=
  construct_aas_reference element failsafe .Submodel

/-- `_construct_asset_reference`. -/
def construct_asset_reference (element : Element) (failsafe : Bool) : CRes AASReference :=
  construct_aas_reference element failsafe .Asset

/-- `_construct_asset_administration_shell_reference`. -/
def construct_asset_administration_shell_reference (element : Element) (failsafe : Bool) :
    CRes AASReference :=
  construct_aas_reference element failsafe .AssetAdministrationShell

/-- `_construct_referable_reference`. -/
def construct_referable_reference (element : Element) (failsafe : Bool) : CRes AASReference :=
  construct_aas_reference element failsafe .Referable

/-- `_construct_concept_description_reference`. -/
def construct_concept_description_reference (element : Element) (failsafe : Bool) :
    CRes AASReference :=
  construct_aas_reference element failsafe .ConceptDescription

/-- `_construct_data_element_reference`. -/
def construct_data_element_reference (element : Element) (failsafe : Bool) : CRes AASReference :=
  construct_aas_reference element failsafe .DataElement

/-- `_construct_administrative_information`. -/
def construct_administrative_information (element : Element) (_failsafe : Bool) :
    CRes AdministrativeInformation :=
  pure ⟨get_text_or_none (element.find (NS_AAS ++ "version")),
        get_text_or_none (element.find (NS_AAS ++ "revision"))⟩

def lang_string_loop : List Element → LangStringSet → CRes LangStringSet
  | [], lss => pure lss
  | lang_string :: rest, lss => do
    let lang ← get_attrib_mandatory lang_string "lang"
    let text ← get_text_mandatory lang_string
    lang_string_loop rest (lssInsert lss lang text)

/-- `_construct_lang_string_set`. -/
def construct_lang_string_set (element : Element) (_failsafe : Bool) : CRes LangStringSet :=
  lang_string_loop (element.findall (NS_IEC ++ "langString")) []

/-- `_construct_identifier`. -/
def construct_identifier (element : Element) (_failsafe : Bool) : CRes Identifier := do
  let value ← get_text_mandatory element
  let idt ← get_attrib_mandatory_mapped element "idType" IDENTIFIER_TYPES_INVERSE
  pure ⟨value, idt⟩

/-- `_construct_security` (stub, like the source). -/
def construct_security (_element : Element) (_failsafe : Bool) : CRes Security :=
  pure Security.mk

/-! ## Trait amendment (`_amend_abstract_attributes`).

The source inspects the constructed object with `isinstance`; here the
step is specialised per concrete type, applying exactly the trait
branches that type has (membership modelled from the spec §3), in source
order: Referable (category, description), Identifiable (id-short,
administration), HasSemantics (semantic id), Qualifiable (qualifiers). -/

def amend_category (element : Element) : Option String :=
  get_text_or_none (element.find (NS_AAS ++ "category"))

def amend_description (element : Element) (failsafe : Bool) : CRes (Option LangStringSet) :=
  failsafe_construct (element.find (NS_AAS ++ "description")) construct_lang_string_set
    "LangStringSet" failsafe

def amend_id_short (element : Element) : Option String :=
  get_text_or_none (element.find (NS_AAS ++ "idShort"))

def amend_administration (element : Element) (failsafe : Bool) :
    CRes (Option AdministrativeInformation) :=
  failsafe_construct (element.find (NS_AAS ++ "administration"))
    construct_administrative_information "AdministrativeInformation" failsafe

def amend_semantic_id (element : Element) (failsafe : Bool) : CRes (Option Reference) :=
  failsafe_construct (element.find (NS_AAS ++ "semanticId")) construct_reference
    "Reference" failsafe

/-- HasSemantics amendment for a Qualifier. -/
def amend_qualifier (q : Qualifier) (element : Element) (failsafe : Bool) : CRes Qualifier := do
  let sid ← amend_semantic_id element failsafe
  pure (match sid with | some s => { q with semantic_id := some s } | none => q)

/-- `if value is not None: ... = model.datatypes.from_xsd(value, value_type)`:
parse an optional text into a typed scalar. -/
def xsd_value_step (text : Option String) (value_type : XsdType) : CRes (Option XsdValue) :=
  match text with
  | some v => do
    let xv ← liftE (from_xsd v value_type)
    pure (some xv)
  | none => pure none

/-- `_construct_qualifier`. -/
def construct_qualifier (element : Element) (failsafe : Bool) : CRes Qualifier := do
  let ty ← child_text_mandatory element (NS_AAS ++ "type")
  let vt ← child_text_mandatory_mapped element (NS_AAS ++ "valueType") XSD_TYPE_CLASSES
  let value ← xsd_value_step (get_text_or_none (element.find (NS_AAS ++ "value"))) vt
  let value_id ← failsafe_construct (element.find (NS_AAS ++ "valueId")) construct_reference
    "Reference" failsafe
  amend_qualifier ⟨ty, vt, value, value_id, none⟩ element failsafe

/-- `_construct_formula`. -/
def construct_formula (element : Element) (failsafe : Bool) : CRes Formula := do
  match element.find (NS_AAS ++ "dependsOnRefs") with
  | none => pure ⟨[]⟩
  | some depends_on_refs => do
    let refs ← failsafe_construct_multiple (depends_on_refs.findall (NS_AAS ++ "reference"))
      construct_reference "Reference" failsafe
    pure ⟨refs⟩

/-- `_construct_constraint`: the two-entry dispatch table. -/
def construct_constraint (element : Element) (failsafe : Bool) : CRes Constraint :=
  if element.tag == NS_AAS ++ "formula" then do
    let f ← construct_formula element failsafe
    pure (Constraint.formula f)
  else if element.tag == NS_AAS ++ "qualifier" then do
    let q ← construct_qualifier element failsafe
    pure (Constraint.qualifier q)
  else
    raiseErr (.keyError ("XML element " ++ element.tag ++ " is not a valid constraint!") none)

/-- The Qualifiable branch: gather constraints from a `qualifiers` child
list, if present. -/
def amend_qualifiers (element : Element) (failsafe : Bool) : CRes (List Constraint) :=
  match element.find (NS_AAS ++ "qualifiers") with
  | none => pure []
  | some qualifiers =>
    failsafe_construct_multiple qualifiers.children construct_constraint "Constraint" failsafe

/-- Referable + HasSemantics + Qualifiable amendment of a submodel
element. -/
def amend_sme (obj : SubmodelElement) (element : Element) (failsafe : Bool) :
    CRes SubmodelElement := do
  let obj := match amend_category element with
    | some c => obj.mapCommon (fun d => { d with category := some c })
    | none => obj
  let description ← amend_description element failsafe
  let obj := match description with
    | some d => obj.mapCommon (fun c => { c with description := some d })
    | none => obj
  let semantic_id ← amend_semantic_id element failsafe
  let obj := match semantic_id with
    | some s => obj.mapCommon (fun c => { c with semantic_id := some s })
    | none => obj
  let qs ← amend_qualifiers element failsafe
  pure (obj.mapCommon (fun c => { c with qualifier := c.qualifier ++ qs }))

/-- Referable + HasSemantics amendment of a View. -/
def amend_view (v : View) (element : Element) (failsafe : Bool) : CRes View := do
  let v := match amend_category element with
    | some c => { v with category := some c }
    | none => v
  let description ← amend_description element failsafe
  let v := match description with
    | some d => { v with description := some d }
    | none => v
  let semantic_id ← amend_semantic_id element failsafe
  pure (match semantic_id with
    | some s => { v with semantic_id := some s }
    | none => v)

/-- Referable amendment of a ConceptDictionary. -/
def amend_concept_dictionary (cd : ConceptDictionary) (element : Element) (failsafe : Bool) :
    CRes ConceptDictionary := do
  let cd := match amend_category element with
    | some c => { cd with category := some c }
    | none => cd
  let description ← amend_description element failsafe
  pure (match description with
    | some d => { cd with description := some d }
    | none => cd)

/-- The optional `containedElements` list of a view. -/
def view_contained_step (contained_elements : Option Element) (failsafe : Bool) :
    CRes (List AASReference) :=
  match contained_elements with
  | none => pure []
  | some ce =>
    failsafe_construct_multiple (ce.findall (NS_AAS ++ "containedElementRef"))
      construct_referable_reference "ReferableReference" failsafe

/-- `_construct_view`. -/
def construct_view (element : Element) (failsafe : Bool) : CRes View := do
  let id_short ← child_text_mandatory element (NS_AAS ++ "idShort")
  let contained ← view_contained_step (element.find (NS_AAS ++ "containedElements")) failsafe
  amend_view ⟨id_short, contained, none, none, none⟩ element failsafe

/-- The optional `conceptDescriptionRefs` list of a concept
dictionary. -/
def concept_dictionary_refs_step (concept_description : Option Element) (failsafe : Bool) :
    CRes (List AASReference) :=
  match concept_description with
  | none => pure []
  | some cd =>
    failsafe_construct_multiple (cd.findall (NS_AAS ++ "conceptDescriptionRef"))
      construct_concept_description_reference "ConceptDescriptionReference" failsafe

/-- `_construct_concept_dictionary`. -/
def construct_concept_dictionary (element : Element) (failsafe : Bool) :
    CRes ConceptDictionary := do
  let id_short ← child_text_mandatory element (NS_AAS ++ "idShort")
  let refs ← concept_dictionary_refs_step (element.find (NS_AAS ++ "conceptDescriptionRefs"))
    failsafe
  amend_concept_dictionary ⟨id_short, refs, none, none⟩ element failsafe

/-- `_get_modeling_kind_kwarg`. -/
def get_modeling_kind_kwarg (element : Element) : CRes (Option ModelingKind) :=
  match element.find (NS_AAS ++ "kind") with
  | none => pure none
  | some kind => do
    let k ← get_text_mandatory_mapped kind MODELING_KIND_INVERSE
    pure (some k)

/-- Exhausted recursion depth: Python's `RecursionError`, which is not a
`KeyError`/`ValueError` and therefore escapes `_failsafe_construct` in
either mode. -/
def recErr {T : Type} : CRes T :=
  raiseErr (.recursionError "maximum recursion depth exceeded" none)

/-- The optional base64 `value` of a blob. -/
def blob_value_step (value : Option Element) : CRes (Option (List Nat)) :=
  match value with
  | none => pure none
  | some v => do
    let text ← get_text_mandatory v
    let bytes ← liftE (b64decode text)
    pure (some bytes)

/-- The optional text `value` of a file. -/
def file_value_step (value : Option Element) : CRes (Option String) :=
  match value with
  | none => pure none
  | some v => do
    let text ← get_text_mandatory v
    pure (some text)

/-- One optional operation-variable list (`inoutputVariable`,
`inputVariable` or `outputVariable`) of an operation. -/
def operation_variable_list_step (ctor : Element → Bool → CRes OperationVariable)
    (list_el : Option Element) (failsafe : Bool) : CRes (List OperationVariable) :=
  match list_el with
  | none => pure []
  | some l =>
    failsafe_construct_multiple (l.findall (NS_AAS ++ "operationVariable")) ctor
      "OperationVariable" failsafe

/-! ## The mutually recursive submodel-element constructors.

Every function consumes one unit of fuel on entry (one Python stack
frame); the fuel models the interpreter's recursion limit, which is the
only reason these mutually recursive traversals terminate on arbitrary
trees. -/

mutual

/-- `_construct_submodel_element`: the 13-entry dispatch table, keyed by
namespaced tag; a lookup miss raises `KeyError`. -/
def construct_submodel_element : Nat → Element → Bool → CRes SubmodelElement
  | 0, _, _ => recErr
  | n + 1, element, failsafe =>
    if element.tag == NS_AAS ++ "annotatedRelationshipElement" then
      construct_annotated_relationship_element n element failsafe
    else if element.tag == NS_AAS ++ "basicEvent" then
      construct_basic_event n element failsafe
    else if element.tag == NS_AAS ++ "blob" then
      construct_blob n element failsafe
    else if element.tag == NS_AAS ++ "capability" then
      construct_capability n element failsafe
    else if element.tag == NS_AAS ++ "entity" then
      construct_entity n element failsafe
    else if element.tag == NS_AAS ++ "file" then
      construct_file n element failsafe
    else if element.tag == NS_AAS ++ "multiLanguageProperty" then
      construct_multi_language_property n element failsafe
    else if element.tag == NS_AAS ++ "operation" then
      construct_operation n element failsafe
    else if element.tag == NS_AAS ++ "property" then
      construct_property n element failsafe
    else if element.tag == NS_AAS ++ "range" then
      construct_range n element failsafe
    else if element.tag == NS_AAS ++ "referenceElement" then
      construct_reference_element n element failsafe
    else if element.tag == NS_AAS ++ "relationshipElement" then
      construct_relationship_element n element failsafe
    else if element.tag == NS_AAS ++ "submodelElementCollection" then
      construct_submodel_element_collection n element failsafe
    else
      raiseErr (.keyError
        ("XML element " ++ element.tag ++ " is not a valid submodel element!") none)
termination_by structural n => n

/-- `_construct_operation_variable`: the wrapped `value` list must hold
exactly one element; zero raises (in either mode), more than one warns
and the first is used; the wrapped element itself is always constructed
in non-failsafe mode. -/
def construct_operation_variable : Nat → Element → Bool → CRes OperationVariable
  | 0, _, _ => recErr
  | n + 1, element, _failsafe => do
    let value ← get_child_mandatory element (NS_AAS ++ "value")
    match value.children with
    | [] => raiseErr (.keyError "Value of operation variable has no submodel element!" none)
    | first :: rest => do
      if rest.isEmpty then pure ()
      else logWarning ("Value of operation variable has more than one submodel element, " ++
        "using the first one...")
      let se ← failsafe_construct_mandatory first (construct_submodel_element n)
        "SubmodelElement"
      pure (OperationVariable.mk se)
termination_by structural n => n

/-- `_construct_annotated_relationship_element`. -/
def construct_annotated_relationship_element : Nat → Element → Bool → CRes SubmodelElement
  | 0, _, _ => recErr
  | _n + 1, element, failsafe => do
    let id_short ← child_text_mandatory element (NS_AAS ++ "idShort")
    let first ← child_construct_mandatory element (NS_AAS ++ "first")
      construct_referable_reference "ReferableReference"
    let second ← child_construct_mandatory element (NS_AAS ++ "second")
      construct_referable_reference "ReferableReference"
    let kind ← get_modeling_kind_kwarg element
    let annotations ← get_child_mandatory element (NS_AAS ++ "annotations")
    let annotation ← failsafe_construct_multiple
      (annotations.findall (NS_AAS ++ "reference")) construct_data_element_reference
      "DataElementReference" failsafe
    amend_sme (.annotatedRelationshipElement (mkSME id_short kind) first second annotation)
      element failsafe

/-- `_construct_basic_event`. -/
def construct_basic_event : Nat → Element → Bool → CRes SubmodelElement
  | 0, _, _ => recErr
  | _n + 1, element, failsafe => do
    let id_short ← child_text_mandatory element (NS_AAS ++ "idShort")
    let observed ← child_construct_mandatory element (NS_AAS ++ "observed")
      construct_referable_reference "ReferableReference"
    let kind ← get_modeling_kind_kwarg element
    amend_sme (.basicEvent (mkSME id_short kind) observed) element failsafe

/-- `_construct_blob`. -/
def construct_blob : Nat → Element → Bool → CRes SubmodelElement
  | 0, _, _ => recErr
  | _n + 1, element, failsafe => do
    let id_short ← child_text_mandatory element (NS_AAS ++ "idShort")
    let mime_type ← child_text_mandatory element (NS_AAS ++ "mimeType")
    let kind ← get_modeling_kind_kwarg element
    let value ← blob_value_step (element.find (NS_AAS ++ "value"))
    amend_sme (.blob (mkSME id_short kind) mime_type value) element failsafe

/-- `_construct_capability`. -/
def construct_capability : Nat → Element → Bool → CRes SubmodelElement
  | 0, _, _ => recErr
  | _n + 1, element, failsafe => do
    let id_short ← child_text_mandatory element (NS_AAS ++ "idShort")
    let kind ← get_modeling_kind_kwarg element
    amend_sme (.capability (mkSME id_short kind)) element failsafe

/-- `_construct_entity`. -/
def construct_entity : Nat → Element → Bool → CRes SubmodelElement
  | 0, _, _ => recErr
  | n + 1, element, failsafe => do
    let id_short ← child_text_mandatory element (NS_AAS ++ "idShort")
    let entity_type ← child_text_mandatory_mapped element (NS_AAS ++ "entityType")
      ENTITY_TYPES_INVERSE
    let kind ← get_modeling_kind_kwarg element
    let asset_ref ← failsafe_construct (element.find (NS_AAS ++ "assetRef"))
      construct_asset_reference "AssetReference" failsafe
    let statements ← get_child_mandatory element (NS_AAS ++ "statements")
    let stmts ← failsafe_construct_multiple statements.children
      (construct_submodel_element n) "SubmodelElement" failsafe
    amend_sme (.entity (mkSME id_short kind) entity_type stmts asset_ref) element failsafe
termination_by structural n => n

/-- `_construct_file`: both the id-short and the mime-type field are
populated from the text of the `idShort` child; the `mimeType` child is
never consulted (translated faithfully from the source). -/
def construct_file : Nat → Element → Bool → CRes SubmodelElement
  | 0, _, _ => recErr
  | _n + 1, element, failsafe => do
    let id_short ← child_text_mandatory element (NS_AAS ++ "idShort")
    let mime_type ← child_text_mandatory element (NS_AAS ++ "idShort")
    let kind ← get_modeling_kind_kwarg element
    let value ← file_value_step (element.find (NS_AAS ++ "value"))
    amend_sme (.file (mkSME id_short kind) mime_type value) element failsafe

/-- `_construct_multi_language_property`. -/
def construct_multi_language_property : Nat → Element → Bool → CRes SubmodelElement
  | 0, _, _ => recErr
  | _n + 1, element, failsafe => do
    let id_short ← child_text_mandatory element (NS_AAS ++ "idShort")
    let kind ← get_modeling_kind_kwarg element
    let value ← failsafe_construct (element.find (NS_AAS ++ "value"))
      construct_lang_string_set "LangStringSet" failsafe
    let value_id ← failsafe_construct (element.find (NS_AAS ++ "valueId"))
      construct_reference "Reference" failsafe
    amend_sme (.multiLanguageProperty (mkSME id_short kind) value value_id) element failsafe

/-- `_construct_operation`: the in/out list is handled first in the
source, then input, then output. -/
def construct_operation : Nat → Element → Bool → CRes SubmodelElement
  | 0, _, _ => recErr
  | n + 1, element, failsafe => do
    let id_short ← child_text_mandatory element (NS_AAS ++ "idShort")
    let kind ← get_modeling_kind_kwarg element
    let in_output_variable ← operation_variable_list_step (construct_operation_variable n)
      (element.find (NS_AAS ++ "inoutputVariable")) failsafe
    let input_variable ← operation_variable_list_step (construct_operation_variable n)
      (element.find (NS_AAS ++ "inputVariable")) failsafe
    let output_variable ← operation_variable_list_step (construct_operation_variable n)
      (element.find (NS_AAS ++ "outputVariable")) failsafe
    amend_sme (.operation (mkSME id_short kind) input_variable output_variable
      in_output_variable) element failsafe
termination_by structural n => n

/-- `_construct_property`. -/
def construct_property : Nat → Element → Bool → CRes SubmodelElement
  | 0, _, _ => recErr
  | _n + 1, element, failsafe => do
    let id_short ← child_text_mandatory element (NS_AAS ++ "idShort")
    let value_type ← child_text_mandatory_mapped element (NS_AAS ++ "valueType")
      XSD_TYPE_CLASSES
    let kind ← get_modeling_kind_kwarg element
    let value ← xsd_value_step (get_text_or_none (element.find (NS_AAS ++ "value"))) value_type
    let value_id ← failsafe_construct (element.find (NS_AAS ++ "valueId"))
      construct_reference "Reference" failsafe
    amend_sme (.property (mkSME id_short kind) value_type value value_id) element failsafe

/-- `_construct_range`: the source parses `max` before `min`. -/
def construct_range : Nat → Element → Bool → CRes SubmodelElement
  | 0, _, _ => recErr
  | _n + 1, element, failsafe => do
    let id_short ← child_text_mandatory element (NS_AAS ++ "idShort")
    let value_type ← child_text_mandatory_mapped element (NS_AAS ++ "valueType")
      XSD_TYPE_CLASSES
    let kind ← get_modeling_kind_kwarg element
    let max ← xsd_value_step (get_text_or_none (element.find (NS_AAS ++ "max"))) value_type
    let min ← xsd_value_step (get_text_or_none (element.find (NS_AAS ++ "min"))) value_type
    amend_sme (.range (mkSME id_short kind) value_type min max) element failsafe

/-- `_construct_reference_element`. -/
def construct_reference_element : Nat → Element → Bool → CRes SubmodelElement
  | 0, _, _ => recErr
  | _n + 1, element, failsafe => do
    let id_short ← child_text_mandatory element (NS_AAS ++ "idShort")
    let kind ← get_modeling_kind_kwarg element
    let value ← failsafe_construct (element.find (NS_AAS ++ "value"))
      construct_referable_reference "ReferableReference" failsafe
    amend_sme (.referenceElement (mkSME id_short kind) value) element failsafe

/-- `_construct_relationship_element`. -/
def construct_relationship_element : Nat → Element → Bool → CRes SubmodelElement
  | 0, _, _ => recErr
  | _n + 1, element, failsafe => do
    let id_short ← child_text_mandatory element (NS_AAS ++ "idShort")
    let first ← child_construct_mandatory element (NS_AAS ++ "first")
      construct_referable_reference "ReferableReference"
    let second ← child_construct_mandatory element (NS_AAS ++ "second")
      construct_referable_reference "ReferableReference"
    let kind ← get_modeling_kind_kwarg element
    amend_sme (.relationshipElement (mkSME id_short kind) first second) element failsafe

/-- `_construct_submodel_element_collection`: the mandatory `ordered`
text selects the ordered variant exactly when it lowercases to
`"true"`. -/
def construct_submodel_element_collection : Nat → Element → Bool → CRes SubmodelElement
  | 0, _, _ => recErr
  | n + 1, element, failsafe => do
    let orderedText ← child_text_mandatory element (NS_AAS ++ "ordered")
    let ordered := pyLower orderedText == "true"
    let id_short ← child_text_mandatory element (NS_AAS ++ "idShort")
    let kind ← get_modeling_kind_kwarg element
    let value ← get_child_mandatory element (NS_AAS ++ "value")
    let ses ← failsafe_construct_multiple value.children
      (construct_submodel_element n) "SubmodelElement" failsafe
    amend_sme (.submodelElementCollection (mkSME id_short kind) ordered ses) element failsafe
termination_by structural n => n

end

/-! ## Top-level constructors and their Identifiable amendment. -/

/-- Referable + Identifiable amendment of a shell. -/
def amend_shell (a : AssetAdministrationShell) (element : Element) (failsafe : Bool) :
    CRes AssetAdministrationShell := do
  let a := match amend_category element with
    | some c => { a with category := some c }
    | none => a
  let description ← amend_description element failsafe
  let a := match description with
    | some d => { a with description := some d }
    | none => a
  let a := match amend_id_short element with
    | some i => { a with id_short := i }
    | none => a
  let administration ← amend_administration element failsafe
  pure (match administration with
    | some ad => { a with administration := some ad }
    | none => a)

/-- Referable + Identifiable amendment of an asset. -/
def amend_asset (a : Asset) (element : Element) (failsafe : Bool) : CRes Asset := do
  let a := match amend_category element with
    | some c => { a with category := some c }
    | none => a
  let description ← amend_description element failsafe
  let a := match description with
    | some d => { a with description := some d }
    | none => a
  let a := match amend_id_short element with
    | some i => { a with id_short := i }
    | none => a
  let administration ← amend_administration element failsafe
  pure (match administration with
    | some ad => { a with administration := some ad }
    | none => a)

/-- Referable + Identifiable + HasSemantics + Qualifiable amendment of a
submodel. -/
def amend_submodel (s : Submodel) (element : Element) (failsafe : Bool) : CRes Submodel := do
  let s := match amend_category element with
    | some c => { s with category := some c }
    | none => s
  let description ← amend_description element failsafe
  let s := match description with
    | some d => { s with description := some d }
    | none => s
  let s := match amend_id_short element with
    | some i => { s with id_short := i }
    | none => s
  let administration ← amend_administration element failsafe
  let s := match administration with
    | some ad => { s with administration := some ad }
    | none => s
  let semantic_id ← amend_semantic_id element failsafe
  let s := match semantic_id with
    | some sid => { s with semantic_id := some sid }
    | none => s
  let qs ← amend_qualifiers element failsafe
  pure { s with qualifier := s.qualifier ++ qs }

/-- Referable + Identifiable amendment of a concept description. -/
def amend_concept_description (cd : ConceptDescription) (element : Element) (failsafe : Bool) :
    CRes ConceptDescription := do
  let cd := match amend_category element with
    | some c => { cd with category := some c }
    | none => cd
  let description ← amend_description element failsafe
  let cd := match description with
    | some d => { cd with description := some d }
    | none => cd
  let cd := match amend_id_short element with
    | some i => { cd with id_short := i }
    | none => cd
  let administration ← amend_administration element failsafe
  pure (match administration with
    | some ad => { cd with administration := some ad }
    | none => cd)

/-- The optional `submodelRefs` list of a shell. -/
def shell_submodel_refs_step (submodels : Option Element) (failsafe : Bool) :
    CRes (List AASReference) :=
  match submodels with
  | none => pure []
  | some sm =>
    failsafe_construct_multiple (sm.findall (NS_AAS ++ "submodelRef"))
      construct_submodel_reference "SubmodelReference" failsafe

/-- The optional `views` list of a shell. -/
def shell_views_step (views : Option Element) (failsafe : Bool) : CRes (List View) :=
  match views with
  | none => pure []
  | some vs =>
    failsafe_construct_multiple (vs.findall (NS_AAS ++ "view")) construct_view "View" failsafe

/-- The optional `conceptDictionaries` list of a shell. -/
def shell_concept_dictionaries_step (concept_dictionaries : Option Element) (failsafe : Bool) :
    CRes (List ConceptDictionary) :=
  match concept_dictionaries with
  | none => pure []
  | some cds =>
    failsafe_construct_multiple (cds.findall (NS_AAS ++ "conceptDictionary"))
      construct_concept_dictionary "ConceptDictionary" failsafe

/-- `_construct_asset_administration_shell`. -/
def construct_asset_administration_shell (_fuel : Nat) (element : Element) (failsafe : Bool) :
    CRes AssetAdministrationShell := do
  let asset ← child_construct_mandatory element (NS_AAS ++ "assetRef")
    construct_asset_reference "AssetReference"
  let identification ← child_construct_mandatory element (NS_AAS ++ "identification")
    construct_identifier "Identifier"
  let security ← failsafe_construct (element.find (NS_ABAC ++ "security"))
    construct_security "Security" failsafe
  let submodel ← shell_submodel_refs_step (element.find (NS_AAS ++ "submodelRefs")) failsafe
  let view ← shell_views_step (element.find (NS_AAS ++ "views")) failsafe
  let concept_dictionary ← shell_concept_dictionaries_step
    (element.find (NS_AAS ++ "conceptDictionaries")) failsafe
  let derived_from ← failsafe_construct (element.find (NS_AAS ++ "derivedFrom"))
    construct_asset_administration_shell_reference "AssetAdministrationShellReference"
    failsafe
  amend_shell ⟨asset, identification, "", none, none, none, security, submodel, view,
    concept_dictionary, derived_from⟩ element failsafe

/-- `_construct_asset`. -/
def construct_asset (_fuel : Nat) (element : Element) (failsafe : Bool) : CRes Asset := do
  let kind ← child_text_mandatory_mapped element (NS_AAS ++ "kind") ASSET_KIND_INVERSE
  let identification ← child_construct_mandatory element (NS_AAS ++ "identification")
    construct_identifier "Identifier"
  let asset_identification_model ← failsafe_construct
    (element.find (NS_AAS ++ "assetIdentificationModelRef")) construct_submodel_reference
    "SubmodelReference" failsafe
  let bill_of_material ← failsafe_construct (element.find (NS_AAS ++ "billOfMaterialRef"))
    construct_submodel_reference "SubmodelReference" failsafe
  amend_asset ⟨kind, identification, "", none, none, none, asset_identification_model,
    bill_of_material⟩ element failsafe

/-- `_construct_submodel`: every child of the mandatory
`submodelElements` list is dispatched as a submodel element; in the
source via a manual loop over `_failsafe_construct`, equivalent to
`_failsafe_construct_multiple`. -/
def construct_submodel (fuel : Nat) (element : Element) (failsafe : Bool) : CRes Submodel := do
  let identification ← child_construct_mandatory element (NS_AAS ++ "identification")
    construct_identifier "Identifier"
  let kind ← get_modeling_kind_kwarg element
  let submodel_elements ← get_child_mandatory element (NS_AAS ++ "submodelElements")
  let elements ← failsafe_construct_multiple submodel_elements.children
    (construct_submodel_element fuel) "SubmodelElement" failsafe
  amend_submodel ⟨identification, elements, kind.getD .INSTANCE, "", none, none, none,
    none, []⟩ element failsafe

/-- `_construct_concept_description`. -/
def construct_concept_description (_fuel : Nat) (element : Element) (failsafe : Bool) :
    CRes ConceptDescription := do
  let identification ← child_construct_mandatory element (NS_AAS ++ "identification")
    construct_identifier "Identifier"
  let is_case_of ← failsafe_construct_multiple (element.findall (NS_AAS ++ "isCaseOf"))
    construct_reference "Reference" failsafe
  amend_concept_description ⟨identification, is_case_of, "", none, none, none⟩ element
    failsafe

/-! ## Object store and document driver. -/

/-- Modelled from the spec: `DictObjectStore.add` — "insertion fails if
an entity with the same Identifier is already present (uniqueness
invariant — reported as an error, not silently overwritten)" (§3); the
failure is a `KeyError`. -/
def store_add (store : List TopLevel) (x : TopLevel) : Except PyError (List TopLevel) :=
  if ∃ y ∈ store, y.identification = x.identification then
    .error (.keyError
      "An object with the same identification is already present in this store!" none)
  else .ok (store ++ [x])

def construct_asset_administration_shell_top (fuel : Nat) (element : Element)
    (failsafe : Bool) : CRes TopLevel := do
  let a ← construct_asset_administration_shell fuel element failsafe
  pure (TopLevel.shell a)

def construct_asset_top (fuel : Nat) (element : Element) (failsafe : Bool) : CRes TopLevel := do
  let a ← construct_asset fuel element failsafe
  pure (TopLevel.asset a)

def construct_submodel_top (fuel : Nat) (element : Element) (failsafe : Bool) :
    CRes TopLevel := do
  let s ← construct_submodel fuel element failsafe
  pure (TopLevel.submodel s)

def construct_concept_description_top (fuel : Nat) (element : Element) (failsafe : Bool) :
    CRes TopLevel := do
  let c ← construct_concept_description fuel element failsafe
  pure (TopLevel.conceptDescription c)

/-- The four-entry top-level dispatch table of `read_xml_aas_file`,
together with the type name used in error messages. -/
def element_constructors (tag : String) :
    Option ((Nat → Element → Bool → CRes TopLevel) × String) :=
  if tag == NS_AAS ++ "assetAdministrationShell" then
    some (construct_asset_administration_shell_top, "AssetAdministrationShell")
  else if tag == NS_AAS ++ "asset" then
    some (construct_asset_top, "Asset")
  else if tag == NS_AAS ++ "submodel" then
    some (construct_submodel_top, "Submodel")
  else if tag == NS_AAS ++ "conceptDescription" then
    some (construct_concept_description_top, "ConceptDescription")
  else none

/-- The inner loop of the driver over one list group: the source drains
the `_failsafe_construct_multiple` generator and calls `ret.add` on every
yielded element, so store insertions interleave with constructions and an
insertion failure (duplicate Identifier) aborts immediately — in either
mode, since nothing catches it.  (The source's `isinstance(element,
model.Identifiable)` guard is always true, as its own comment notes.) -/
def process_elements (fuel : Nat) (elements : List Element)
    (constructor : Nat → Element → Bool → CRes TopLevel) (type_name : String)
    (failsafe : Bool) (store : List TopLevel) : CRes (List TopLevel) :=
  match elements with
  | [] => pure store
  | element :: rest => do
    let parsed ← failsafe_construct (some element) (constructor fuel) type_name failsafe
    match parsed with
    | none => process_elements fuel rest constructor type_name failsafe store
    | some v => do
      let store2 ← liftE (store_add store v)
      process_elements fuel rest constructor type_name failsafe store2

/-- The outer loop of `read_xml_aas_file` over the root's list groups:
`element_tag = list_.tag[:-1]`; the group is accepted only if the tag
ends in `"s"` and the stem is a key of the dispatch table, otherwise
non-failsafe mode raises `TypeError` and failsafe mode warns and skips.
(Python would raise `IndexError` on an empty tag; `ElementTree` never
produces one.) -/
def process_lists (fuel : Nat) (lists : List Element) (failsafe : Bool)
    (store : List TopLevel) : CRes (List TopLevel) :=
  match lists with
  | [] => pure store
  | list_ :: rest =>
    match list_.tag.data.getLast? with
    | none => raiseErr (.indexError "string index out of range" none)
    | some lastChar =>
      let element_tag := String.mk list_.tag.data.dropLast
      match element_constructors element_tag, lastChar == 's' with
      | some (constructor, type_name), true => do
        let store2 ← process_elements fuel (list_.findall element_tag) constructor
          type_name failsafe store
        process_lists fuel rest failsafe store2
      | _, _ => do
        let error_message := "Unexpected top-level list " ++ list_.tag ++ "!"
        if !failsafe then raiseErr (.typeError error_message none)
        else do
          logWarning error_message
          process_lists fuel rest failsafe store

/-- `read_xml_aas_file`, from the already-parsed document root (the
tree/text parser is an external collaborator, §1/§6): walk the root's
list groups and assemble the object collection. -/
def read_xml_aas_file (fuel : Nat) (root : Element) (failsafe : Bool) : CRes (List TopLevel) :=
  process_lists fuel root.children failsafe []

/-! ## Simulation: a successful non-failsafe run is reproduced verbatim
by the failsafe run.

`SimOk a b` says: whenever computation `a` succeeds with value `v` and
log `L`, computation `b` does too.  The strictness flag only matters in
the error branches of `_failsafe_construct` and in the driver's
list-tag check, so a strict success forces the lenient run down the very
same path. -/

def SimOk {T : Type} (a b : CRes T) : Prop :=
  ∀ v L, a = (Except.ok v, L) → b = (Except.ok v, L)

theorem simOk_of_eq {T : Type} {a b : CRes T} (h : a = b) : SimOk a b := by
  intro v L hv
  rw [← h]
  exact hv

theorem simOk_refl {T : Type} (a : CRes T) : SimOk a a := simOk_of_eq rfl

theorem simOk_error {T : Type} (e : PyError) (L : List LogLine) (b : CRes T) :
    SimOk (Except.error e, L) b := by
  intro v L2 hv
  exact absurd (congrArg Prod.fst hv) (by simp)

/-- Decompose a successful bind. -/
theorem bind_ok_elim {A B : Type} {a : CRes A} {f : A → CRes B} {v : B} {L : List LogLine}
    (h : (a >>= f) = (Except.ok v, L)) :
    ∃ x L1 L2, a = (Except.ok x, L1) ∧ f x = (Except.ok v, L2) ∧ L = L1 ++ L2 := by
  rw [cres_bind_def] at h
  rcases ha : a with ⟨r1, L1⟩
  rw [ha] at h
  cases r1 with
  | ok x =>
    rw [cresBind_ok] at h
    refine ⟨x, L1, (f x).2, rfl, ?_, ?_⟩
    · rcases hf : f x with ⟨r2, L2⟩
      have h1 : r2 = Except.ok v := by
        have := congrArg Prod.fst h
        simpa [hf] using this
      simp [h1]
    · have := congrArg Prod.snd h
      simpa using this.symm
  | error e =>
    rw [cresBind_error] at h
    exact absurd (congrArg Prod.fst h) (by simp)

/-- Rebuild a successful bind. -/
theorem bind_ok_intro {A B : Type} {a : CRes A} {f : A → CRes B} {x : A} {v : B}
    {L1 L2 : List LogLine} (ha : a = (Except.ok x, L1)) (hf : f x = (Except.ok v, L2)) :
    (a >>= f) = (Except.ok v, L1 ++ L2) := by
  rw [cres_bind_def, ha, cresBind_ok, hf]

theorem simOk_bind {A B : Type} {a a' : CRes A} {f f' : A → CRes B}
    (ha : SimOk a a') (hf : ∀ x, SimOk (f x) (f' x)) : SimOk (a >>= f) (a' >>= f') := by
  intro v L h
  obtain ⟨x, L1, L2, h1, h2, h3⟩ := bind_ok_elim h
  subst h3
  exact bind_ok_intro (ha x L1 h1) (hf x v L2 h2)

/-- The wrapper preserves simulation: a strict-mode success of
`_failsafe_construct` means the constructor succeeded, and the failsafe
run then takes the same branch. -/
theorem simOk_failsafe_construct {T : Type} {ctor : Element → Bool → CRes T}
    (tn : String) (el : Option Element)
    (h : ∀ e, SimOk (ctor e false) (ctor e true)) :
    SimOk (failsafe_construct el ctor tn false) (failsafe_construct el ctor tn true) := by
  cases el with
  | none => exact simOk_refl _
  | some e =>
    intro v L hv
    simp only [failsafe_construct] at hv ⊢
    rcases hc : ctor e false with ⟨r1, L1⟩
    rw [hc] at hv
    cases r1 with
    | ok w =>
      have := h e w L1 (by rw [hc])
      rw [this]
      exact hv
    | error err =>
      by_cases hcaught : err.isCaught = true
      · simp only [hcaught, if_true, Bool.not_false, if_true] at hv
        exact absurd (congrArg Prod.fst hv) (by simp)
      · simp only [Bool.not_eq_true] at hcaught
        simp only [hcaught, Bool.false_eq_true, if_false] at hv
        exact absurd (congrArg Prod.fst hv) (by simp)

/-- Multiple construction preserves simulation elementwise. -/
theorem simOk_failsafe_construct_multiple {T : Type} {ctor : Element → Bool → CRes T}
    (tn : String) (els : List Element)
    (h : ∀ e, SimOk (ctor e false) (ctor e true)) :
    SimOk (failsafe_construct_multiple els ctor tn false)
      (failsafe_construct_multiple els ctor tn true) := by
  induction els with
  | nil => exact simOk_refl _
  | cons e rest ih =>
    unfold failsafe_construct_multiple
    exact simOk_bind (simOk_failsafe_construct tn (some e) h)
      (fun parsed => simOk_bind ih (fun restParsed => simOk_refl _))

theorem simOk_construct_key (el : Element) :
    SimOk (construct_key el false) (construct_key el true) := simOk_of_eq rfl

theorem simOk_construct_key_tuple (el : Element) :
    SimOk (construct_key_tuple el false) (construct_key_tuple el true) := by
  unfold construct_key_tuple
  exact simOk_bind (simOk_refl _)
    (fun keys => simOk_failsafe_construct_multiple _ _ simOk_construct_key)

theorem simOk_construct_reference (el : Element) :
    SimOk (construct_reference el false) (construct_reference el true) := by
  unfold construct_reference
  exact simOk_bind (simOk_construct_key_tuple el) (fun keys => simOk_refl _)

theorem simOk_construct_aas_reference (el : Element) (type_ : ModelClass) :
    SimOk (construct_aas_reference el false type_) (construct_aas_reference el true type_) := by
  unfold construct_aas_reference
  exact simOk_bind (simOk_construct_key_tuple el) (fun keys => simOk_refl _)

theorem simOk_construct_submodel_reference (el : Element) :
    SimOk (construct_submodel_reference el false) (construct_submodel_reference el true) :=
  simOk_construct_aas_reference el .Submodel

theorem simOk_construct_asset_reference (el : Element) :
    SimOk (construct_asset_reference el false) (construct_asset_reference el true) :=
  simOk_construct_aas_reference el .Asset

theorem simOk_construct_asset_administration_shell_reference (el : Element) :
    SimOk (construct_asset_administration_shell_reference el false)
      (construct_asset_administration_shell_reference el true) :=
  simOk_construct_aas_reference el .AssetAdministrationShell

theorem simOk_construct_referable_reference (el : Element) :
    SimOk (construct_referable_reference el false) (construct_referable_reference el true) :=
  simOk_construct_aas_reference el .Referable

theorem simOk_construct_concept_description_reference (el : Element) :
    SimOk (construct_concept_description_reference el false)
      (construct_concept_description_reference el true) :=
  simOk_construct_aas_reference el .ConceptDescription

theorem simOk_construct_data_element_reference (el : Element) :
    SimOk (construct_data_element_reference el false)
      (construct_data_element_reference el true) :=
  simOk_construct_aas_reference el .DataElement

theorem simOk_amend_description (el : Element) :
    SimOk (amend_description el false) (amend_description el true) := by
  unfold amend_description
  exact simOk_failsafe_construct _ _ (fun e => simOk_of_eq rfl)

theorem simOk_amend_administration (el : Element) :
    SimOk (amend_administration el false) (amend_administration el true) := by
  unfold amend_administration
  exact simOk_failsafe_construct _ _ (fun e => simOk_of_eq rfl)

theorem simOk_amend_semantic_id (el : Element) :
    SimOk (amend_semantic_id el false) (amend_semantic_id el true) := by
  unfold amend_semantic_id
  exact simOk_failsafe_construct _ _ simOk_construct_reference

theorem simOk_amend_qualifier (q : Qualifier) (el : Element) :
    SimOk (amend_qualifier q el false) (amend_qualifier q el true) := by
  unfold amend_qualifier
  exact simOk_bind (simOk_amend_semantic_id el) (fun sid => simOk_refl _)

theorem simOk_construct_qualifier (el : Element) :
    SimOk (construct_qualifier el false) (construct_qualifier el true) := by
  unfold construct_qualifier
  exact simOk_bind (simOk_refl _) (fun ty =>
    simOk_bind (simOk_refl _) (fun vt =>
      simOk_bind (simOk_refl _) (fun value =>
        simOk_bind (simOk_failsafe_construct _ _ simOk_construct_reference)
          (fun value_id => simOk_amend_qualifier _ el))))

theorem simOk_view_contained_step (ce : Option Element) :
    SimOk (view_contained_step ce false) (view_contained_step ce true) := by
  cases ce with
  | none => exact simOk_refl _
  | some c =>
    unfold view_contained_step
    exact simOk_failsafe_construct_multiple _ _ simOk_construct_referable_reference

theorem simOk_concept_dictionary_refs_step (cd : Option Element) :
    SimOk (concept_dictionary_refs_step cd false) (concept_dictionary_refs_step cd true) := by
  cases cd with
  | none => exact simOk_refl _
  | some c =>
    unfold concept_dictionary_refs_step
    exact simOk_failsafe_construct_multiple _ _ simOk_construct_concept_description_reference

theorem simOk_construct_formula (el : Element) :
    SimOk (construct_formula el false) (construct_formula el true) := by
  unfold construct_formula
  cases el.find (NS_AAS ++ "dependsOnRefs") with
  | none => exact simOk_refl _
  | some depends_on_refs =>
    exact simOk_bind (simOk_failsafe_construct_multiple _ _ simOk_construct_reference)
      (fun refs => simOk_refl _)

theorem simOk_construct_constraint (el : Element) :
    SimOk (construct_constraint el false) (construct_constraint el true) := by
  unfold construct_constraint
  by_cases h1 : (el.tag == NS_AAS ++ "formula") = true
  · simp only [h1, if_true]
    exact simOk_bind (simOk_construct_formula el) (fun f => simOk_refl _)
  · rw [Bool.not_eq_true] at h1
    simp only [h1, Bool.false_eq_true, if_false]
    by_cases h2 : (el.tag == NS_AAS ++ "qualifier") = true
    · simp only [h2, if_true]
      exact simOk_bind (simOk_construct_qualifier el) (fun q => simOk_refl _)
    · rw [Bool.not_eq_true] at h2
      simp only [h2, Bool.false_eq_true, if_false]
      exact simOk_refl _

theorem simOk_amend_qualifiers (el : Element) :
    SimOk (amend_qualifiers el false) (amend_qualifiers el true) := by
  unfold amend_qualifiers
  cases el.find (NS_AAS ++ "qualifiers") with
  | none => exact simOk_refl _
  | some qualifiers =>
    exact simOk_failsafe_construct_multiple _ _ simOk_construct_constraint

theorem simOk_amend_sme (obj : SubmodelElement) (el : Element) :
    SimOk (amend_sme obj el false) (amend_sme obj el true) := by
  unfold amend_sme
  exact simOk_bind (simOk_amend_description el) (fun description =>
    simOk_bind (simOk_amend_semantic_id el) (fun semantic_id =>
      simOk_bind (simOk_amend_qualifiers el) (fun qs => simOk_refl _)))

theorem simOk_amend_view (v : View) (el : Element) :
    SimOk (amend_view v el false) (amend_view v el true) := by
  unfold amend_view
  exact simOk_bind (simOk_amend_description el) (fun description =>
    simOk_bind (simOk_amend_semantic_id el) (fun semantic_id => simOk_refl _))

theorem simOk_amend_concept_dictionary (cd : ConceptDictionary) (el : Element) :
    SimOk (amend_concept_dictionary cd el false) (amend_concept_dictionary cd el true) := by
  unfold amend_concept_dictionary
  exact simOk_bind (simOk_amend_description el) (fun description => simOk_refl _)

theorem simOk_construct_view (el : Element) :
    SimOk (construct_view el false) (construct_view el true) := by
  unfold construct_view
  exact simOk_bind (simOk_refl _) (fun id_short =>
    simOk_bind (simOk_view_contained_step _) (fun contained => simOk_amend_view _ el))

theorem simOk_construct_concept_dictionary (el : Element) :
    SimOk (construct_concept_dictionary el false) (construct_concept_dictionary el true) := by
  unfold construct_concept_dictionary
  exact simOk_bind (simOk_refl _) (fun id_short =>
    simOk_bind (simOk_concept_dictionary_refs_step _)
      (fun refs => simOk_amend_concept_dictionary _ el))

theorem simOk_ite {T : Type} (c : Prop) [Decidable c] {a a' b b' : CRes T}
    (ha : SimOk a a') (hb : SimOk b b') :
    SimOk (if c then a else b) (if c then a' else b') := by
  by_cases h : c <;> simp only [h, if_true, if_false] <;> assumption

theorem simOk_operation_variable_list_step {ctor : Element → Bool → CRes OperationVariable}
    (h : ∀ e, SimOk (ctor e false) (ctor e true)) (lst : Option Element) :
    SimOk (operation_variable_list_step ctor lst false)
      (operation_variable_list_step ctor lst true) := by
  cases lst with
  | none => exact simOk_refl _
  | some l =>
    unfold operation_variable_list_step
    exact simOk_failsafe_construct_multiple _ _ h

/-- The bundled simulation statement for the fuelled cluster. -/
def SimOkCluster (fuel : Nat) : Prop :=
  (∀ el, SimOk (construct_submodel_element fuel el false)
    (construct_submodel_element fuel el true)) ∧
  (∀ el, SimOk (construct_operation_variable fuel el false)
    (construct_operation_variable fuel el true)) ∧
  (∀ el, SimOk (construct_annotated_relationship_element fuel el false)
    (construct_annotated_relationship_element fuel el true)) ∧
  (∀ el, SimOk (construct_basic_event fuel el false) (construct_basic_event fuel el true)) ∧
  (∀ el, SimOk (construct_blob fuel el false) (construct_blob fuel el true)) ∧
  (∀ el, SimOk (construct_capability fuel el false) (construct_capability fuel el true)) ∧
  (∀ el, SimOk (construct_entity fuel el false) (construct_entity fuel el true)) ∧
  (∀ el, SimOk (construct_file fuel el false) (construct_file fuel el true)) ∧
  (∀ el, SimOk (construct_multi_language_property fuel el false)
    (construct_multi_language_property fuel el true)) ∧
  (∀ el, SimOk (construct_operation fuel el false) (construct_operation fuel el true)) ∧
  (∀ el, SimOk (construct_property fuel el false) (construct_property fuel el true)) ∧
  (∀ el, SimOk (construct_range fuel el false) (construct_range fuel el true)) ∧
  (∀ el, SimOk (construct_reference_element fuel el false)
    (construct_reference_element fuel el true)) ∧
  (∀ el, SimOk (construct_relationship_element fuel el false)
    (construct_relationship_element fuel el true)) ∧
  (∀ el, SimOk (construct_submodel_element_collection fuel el false)
    (construct_submodel_element_collection fuel el true))

theorem simOkCluster : ∀ fuel, SimOkCluster fuel := by
  intro fuel
  induction fuel with
  | zero =>
    exact ⟨fun el => simOk_of_eq rfl, fun el => simOk_of_eq rfl, fun el => simOk_of_eq rfl,
      fun el => simOk_of_eq rfl, fun el => simOk_of_eq rfl, fun el => simOk_of_eq rfl,
      fun el => simOk_of_eq rfl, fun el => simOk_of_eq rfl, fun el => simOk_of_eq rfl,
      fun el => simOk_of_eq rfl, fun el => simOk_of_eq rfl, fun el => simOk_of_eq rfl,
      fun el => simOk_of_eq rfl, fun el => simOk_of_eq rfl, fun el => simOk_of_eq rfl⟩
  | succ n ih =>
    obtain ⟨ihSME, ihOV, ihARE, ihBE, ihBlob, ihCap, ihEnt, ihFile, ihMLP, ihOp, ihProp,
      ihRange, ihRefEl, ihRelEl, ihColl⟩ := ih
    refine ⟨?_, ?_, ?_, ?_, ?_, ?_, ?_, ?_, ?_, ?_, ?_, ?_, ?_, ?_, ?_⟩
    · intro el
      simp only [construct_submodel_element]
      exact simOk_ite _ (ihARE el) (simOk_ite _ (ihBE el) (simOk_ite _ (ihBlob el)
        (simOk_ite _ (ihCap el) (simOk_ite _ (ihEnt el) (simOk_ite _ (ihFile el)
        (simOk_ite _ (ihMLP el) (simOk_ite _ (ihOp el) (simOk_ite _ (ihProp el)
        (simOk_ite _ (ihRange el) (simOk_ite _ (ihRefEl el) (simOk_ite _ (ihRelEl el)
        (simOk_ite _ (ihColl el) (simOk_error _ _ _)))))))))))))
    · intro el
      simp only [construct_operation_variable]
      exact simOk_refl _
    · intro el
      simp only [construct_annotated_relationship_element]
      exact simOk_bind (simOk_refl _) (fun id_short =>
        simOk_bind (simOk_refl _) (fun first =>
          simOk_bind (simOk_refl _) (fun second =>
            simOk_bind (simOk_refl _) (fun kind =>
              simOk_bind (simOk_refl _) (fun annotations =>
                simOk_bind
                  (simOk_failsafe_construct_multiple _ _ simOk_construct_data_element_reference)
                  (fun annotation => simOk_amend_sme _ el))))))
    · intro el
      simp only [construct_basic_event]
      exact simOk_bind (simOk_refl _) (fun id_short =>
        simOk_bind (simOk_refl _) (fun observed =>
          simOk_bind (simOk_refl _) (fun kind => simOk_amend_sme _ el)))
    · intro el
      simp only [construct_blob]
      exact simOk_bind (simOk_refl _) (fun id_short =>
        simOk_bind (simOk_refl _) (fun mime_type =>
          simOk_bind (simOk_refl _) (fun kind =>
            simOk_bind (simOk_refl _) (fun value => simOk_amend_sme _ el))))
    · intro el
      simp only [construct_capability]
      exact simOk_bind (simOk_refl _) (fun id_short =>
        simOk_bind (simOk_refl _) (fun kind => simOk_amend_sme _ el))
    · intro el
      simp only [construct_entity]
      exact simOk_bind (simOk_refl _) (fun id_short =>
        simOk_bind (simOk_refl _) (fun entity_type =>
          simOk_bind (simOk_refl _) (fun kind =>
            simOk_bind (simOk_failsafe_construct _ _ simOk_construct_asset_reference)
              (fun asset_ref =>
                simOk_bind (simOk_refl _) (fun statements =>
                  simOk_bind (simOk_failsafe_construct_multiple _ _ ihSME)
                    (fun stmts => simOk_amend_sme _ el))))))
    · intro el
      simp only [construct_file]
      exact simOk_bind (simOk_refl _) (fun id_short =>
        simOk_bind (simOk_refl _) (fun mime_type =>
          simOk_bind (simOk_refl _) (fun kind =>
            simOk_bind (simOk_refl _) (fun value => simOk_amend_sme _ el))))
    · intro el
      simp only [construct_multi_language_property]
      exact simOk_bind (simOk_refl _) (fun id_short =>
        simOk_bind (simOk_refl _) (fun kind =>
          simOk_bind (simOk_failsafe_construct _ _ (fun e => simOk_of_eq rfl))
            (fun value =>
              simOk_bind (simOk_failsafe_construct _ _ simOk_construct_reference)
                (fun value_id => simOk_amend_sme _ el))))
    · intro el
      simp only [construct_operation]
      exact simOk_bind (simOk_refl _) (fun id_short =>
        simOk_bind (simOk_refl _) (fun kind =>
          simOk_bind (simOk_operation_variable_list_step ihOV _) (fun in_output_variable =>
            simOk_bind (simOk_operation_variable_list_step ihOV _) (fun input_variable =>
              simOk_bind (simOk_operation_variable_list_step ihOV _) (fun output_variable =>
                simOk_amend_sme _ el)))))
    · intro el
      simp only [construct_property]
      exact simOk_bind (simOk_refl _) (fun id_short =>
        simOk_bind (simOk_refl _) (fun value_type =>
          simOk_bind (simOk_refl _) (fun kind =>
            simOk_bind (simOk_refl _) (fun value =>
              simOk_bind (simOk_failsafe_construct _ _ simOk_construct_reference)
                (fun value_id => simOk_amend_sme _ el)))))
    · intro el
      simp only [construct_range]
      exact simOk_bind (simOk_refl _) (fun id_short =>
        simOk_bind (simOk_refl _) (fun value_type =>
          simOk_bind (simOk_refl _) (fun kind =>
            simOk_bind (simOk_refl _) (fun max =>
              simOk_bind (simOk_refl _) (fun min => simOk_amend_sme _ el)))))
    · intro el
      simp only [construct_reference_element]
      exact simOk_bind (simOk_refl _) (fun id_short =>
        simOk_bind (simOk_refl _) (fun kind =>
          simOk_bind (simOk_failsafe_construct _ _ simOk_construct_referable_reference)
            (fun value => simOk_amend_sme _ el)))
    · intro el
      simp only [construct_relationship_element]
      exact simOk_bind (simOk_refl _) (fun id_short =>
        simOk_bind (simOk_refl _) (fun first =>
          simOk_bind (simOk_refl _) (fun second =>
            simOk_bind (simOk_refl _) (fun kind => simOk_amend_sme _ el))))
    · intro el
      simp only [construct_submodel_element_collection]
      exact simOk_bind (simOk_refl _) (fun orderedText =>
        simOk_bind (simOk_refl _) (fun id_short =>
          simOk_bind (simOk_refl _) (fun kind =>
            simOk_bind (simOk_refl _) (fun value =>
              simOk_bind (simOk_failsafe_construct_multiple _ _ ihSME)
                (fun ses => simOk_amend_sme _ el)))))

theorem simOk_amend_shell (a : AssetAdministrationShell) (el : Element) :
    SimOk (amend_shell a el false) (amend_shell a el true) := by
  unfold amend_shell
  exact simOk_bind (simOk_amend_description el) (fun description =>
    simOk_bind (simOk_amend_administration el) (fun administration => simOk_refl _))

theorem simOk_amend_asset (a : Asset) (el : Element) :
    SimOk (amend_asset a el false) (amend_asset a el true) := by
  unfold amend_asset
  exact simOk_bind (simOk_amend_description el) (fun description =>
    simOk_bind (simOk_amend_administration el) (fun administration => simOk_refl _))

theorem simOk_amend_submodel (s : Submodel) (el : Element) :
    SimOk (amend_submodel s el false) (amend_submodel s el true) := by
  unfold amend_submodel
  exact simOk_bind (simOk_amend_description el) (fun description =>
    simOk_bind (simOk_amend_administration el) (fun administration =>
      simOk_bind (simOk_amend_semantic_id el) (fun semantic_id =>
        simOk_bind (simOk_amend_qualifiers el) (fun qs => simOk_refl _))))

theorem simOk_amend_concept_description (cd : ConceptDescription) (el : Element) :
    SimOk (amend_concept_description cd el false) (amend_concept_description cd el true) := by
  unfold amend_concept_description
  exact simOk_bind (simOk_amend_description el) (fun description =>
    simOk_bind (simOk_amend_administration el) (fun administration => simOk_refl _))

theorem simOk_shell_submodel_refs_step (sm : Option Element) :
    SimOk (shell_submodel_refs_step sm false) (shell_submodel_refs_step sm true) := by
  cases sm with
  | none => exact simOk_refl _
  | some s =>
    unfold shell_submodel_refs_step
    exact simOk_failsafe_construct_multiple _ _ simOk_construct_submodel_reference

theorem simOk_shell_views_step (vs : Option Element) :
    SimOk (shell_views_step vs false) (shell_views_step vs true) := by
  cases vs with
  | none => exact simOk_refl _
  | some v =>
    unfold shell_views_step
    exact simOk_failsafe_construct_multiple _ _ simOk_construct_view

theorem simOk_shell_concept_dictionaries_step (cds : Option Element) :
    SimOk (shell_concept_dictionaries_step cds false)
      (shell_concept_dictionaries_step cds true) := by
  cases cds with
  | none => exact simOk_refl _
  | some c =>
    unfold shell_concept_dictionaries_step
    exact simOk_failsafe_construct_multiple _ _ simOk_construct_concept_dictionary

theorem simOk_construct_asset_administration_shell (fuel : Nat) (el : Element) :
    SimOk (construct_asset_administration_shell fuel el false)
      (construct_asset_administration_shell fuel el true) := by
  unfold construct_asset_administration_shell
  exact simOk_bind (simOk_refl _) (fun asset =>
    simOk_bind (simOk_refl _) (fun identification =>
      simOk_bind (simOk_failsafe_construct _ _ (fun e => simOk_of_eq rfl)) (fun security =>
        simOk_bind (simOk_shell_submodel_refs_step _) (fun submodel =>
          simOk_bind (simOk_shell_views_step _) (fun view =>
            simOk_bind (simOk_shell_concept_dictionaries_step _) (fun concept_dictionary =>
              simOk_bind
                (simOk_failsafe_construct _ _
                  simOk_construct_asset_administration_shell_reference)
                (fun derived_from => simOk_amend_shell _ el)))))))

theorem simOk_construct_asset (fuel : Nat) (el : Element) :
    SimOk (construct_asset fuel el false) (construct_asset fuel el true) := by
  unfold construct_asset
  exact simOk_bind (simOk_refl _) (fun kind =>
    simOk_bind (simOk_refl _) (fun identification =>
      simOk_bind (simOk_failsafe_construct _ _ simOk_construct_submodel_reference)
        (fun asset_identification_model =>
          simOk_bind (simOk_failsafe_construct _ _ simOk_construct_submodel_reference)
            (fun bill_of_material => simOk_amend_asset _ el))))

theorem simOk_construct_submodel (fuel : Nat) (el : Element) :
    SimOk (construct_submodel fuel el false) (construct_submodel fuel el true) := by
  unfold construct_submodel
  exact simOk_bind (simOk_refl _) (fun identification =>
    simOk_bind (simOk_refl _) (fun kind =>
      simOk_bind (simOk_refl _) (fun submodel_elements =>
        simOk_bind (simOk_failsafe_construct_multiple _ _ (simOkCluster fuel).1)
          (fun elements => simOk_amend_submodel _ el))))

theorem simOk_construct_concept_description (fuel : Nat) (el : Element) :
    SimOk (construct_concept_description fuel el false)
      (construct_concept_description fuel el true) := by
  unfold construct_concept_description
  exact simOk_bind (simOk_refl _) (fun identification =>
    simOk_bind (simOk_failsafe_construct_multiple _ _ simOk_construct_reference)
      (fun is_case_of => simOk_amend_concept_description _ el))

theorem simOk_construct_asset_administration_shell_top (fuel : Nat) (el : Element) :
    SimOk (construct_asset_administration_shell_top fuel el false)
      (construct_asset_administration_shell_top fuel el true) := by
  unfold construct_asset_administration_shell_top
  exact simOk_bind (simOk_construct_asset_administration_shell fuel el) (fun a => simOk_refl _)

theorem simOk_construct_asset_top (fuel : Nat) (el : Element) :
    SimOk (construct_asset_top fuel el false) (construct_asset_top fuel el true) := by
  unfold construct_asset_top
  exact simOk_bind (simOk_construct_asset fuel el) (fun a => simOk_refl _)

theorem simOk_construct_submodel_top (fuel : Nat) (el : Element) :
    SimOk (construct_submodel_top fuel el false) (construct_submodel_top fuel el true) := by
  unfold construct_submodel_top
  exact simOk_bind (simOk_construct_submodel fuel el) (fun s => simOk_refl _)

theorem simOk_construct_concept_description_top (fuel : Nat) (el : Element) :
    SimOk (construct_concept_description_top fuel el false)
      (construct_concept_description_top fuel el true) := by
  unfold construct_concept_description_top
  exact simOk_bind (simOk_construct_concept_description fuel el) (fun c => simOk_refl _)

/-- Every constructor reachable from the top-level dispatch table
simulates. -/
theorem element_constructors_sim (tag : String)
    (ctor : Nat → Element → Bool → CRes TopLevel) (tn : String)
    (h : element_constructors tag = some (ctor, tn)) :
    ∀ fuel el, SimOk (ctor fuel el false) (ctor fuel el true) := by
  unfold element_constructors at h
  by_cases h1 : (tag == NS_AAS ++ "assetAdministrationShell") = true
  · simp only [h1, if_true, Option.some.injEq, Prod.mk.injEq] at h
    obtain ⟨hc, _⟩ := h
    subst hc
    exact simOk_construct_asset_administration_shell_top
  · rw [Bool.not_eq_true] at h1
    simp only [h1, Bool.false_eq_true, if_false] at h
    by_cases h2 : (tag == NS_AAS ++ "asset") = true
    · simp only [h2, if_true, Option.some.injEq, Prod.mk.injEq] at h
      obtain ⟨hc, _⟩ := h
      subst hc
      exact simOk_construct_asset_top
    · rw [Bool.not_eq_true] at h2
      simp only [h2, Bool.false_eq_true, if_false] at h
      by_cases h3 : (tag == NS_AAS ++ "submodel") = true
      · simp only [h3, if_true, Option.some.injEq, Prod.mk.injEq] at h
        obtain ⟨hc, _⟩ := h
        subst hc
        exact simOk_construct_submodel_top
      · rw [Bool.not_eq_true] at h3
        simp only [h3, Bool.false_eq_true, if_false] at h
        by_cases h4 : (tag == NS_AAS ++ "conceptDescription") = true
        · simp only [h4, if_true, Option.some.injEq, Prod.mk.injEq] at h
          obtain ⟨hc, _⟩ := h
          subst hc
          exact simOk_construct_concept_description_top
        · rw [Bool.not_eq_true] at h4
          simp only [h4, Bool.false_eq_true, if_false] at h
          exact absurd h (by simp)

theorem simOk_process_elements (fuel : Nat)
    (ctor : Nat → Element → Bool → CRes TopLevel) (tn : String)
    (h : ∀ f el, SimOk (ctor f el false) (ctor f el true)) :
    ∀ els store, SimOk (process_elements fuel els ctor tn false store)
      (process_elements fuel els ctor tn true store) := by
  intro els
  induction els with
  | nil => intro store; exact simOk_refl _
  | cons e rest ih =>
    intro store
    unfold process_elements
    refine simOk_bind (simOk_failsafe_construct tn (some e) (h fuel)) (fun parsed => ?_)
    cases parsed with
    | none => exact ih store
    | some v => exact simOk_bind (simOk_refl _) (fun store2 => ih store2)

theorem simOk_raiseErr {T : Type} (e : PyError) (b : CRes T) : SimOk (raiseErr e) b := by
  intro v L hv
  exact absurd (congrArg Prod.fst hv) (by simp [raiseErr])

theorem simOk_process_lists (fuel : Nat) :
    ∀ lists store, SimOk (process_lists fuel lists false store)
      (process_lists fuel lists true store) := by
  intro lists
  induction lists with
  | nil => intro store; exact simOk_refl _
  | cons list_ rest ih =>
    intro store
    unfold process_lists
    cases hL : list_.tag.data.getLast? with
    | none => exact simOk_raiseErr _ _
    | some lastChar =>
      cases hec : element_constructors (String.mk list_.tag.data.dropLast) with
      | none =>
        cases hs : lastChar == 's' with
        | true =>
          simp only [hec, hs]
          exact simOk_raiseErr _ _
        | false =>
          simp only [hec, hs]
          exact simOk_raiseErr _ _
      | some pair =>
        rcases pair with ⟨ctor, tn⟩
        cases hs : lastChar == 's' with
        | true =>
          simp only [hec, hs]
          exact simOk_bind
            (simOk_process_elements fuel ctor tn (element_constructors_sim _ ctor tn hec) _
              store)
            (fun store2 => ih store2)
        | false =>
          simp only [hec, hs]
          exact simOk_raiseErr _ _

/-- A successful strict decode is reproduced identically (same
collection, same log) by the failsafe decode. -/
theorem simOk_read_xml_aas_file (fuel : Nat) (root : Element) :
    SimOk (read_xml_aas_file fuel root false) (read_xml_aas_file fuel root true) :=
  simOk_process_lists fuel root.children []

/-! ## The uniqueness invariant of the object collection. -/

/-- The Identifiers of the stored entities are pairwise distinct. -/
def idsNodup (store : List TopLevel) : Prop :=
  (store.map TopLevel.identification).Nodup

theorem store_add_nodup {store : List TopLevel} {x : TopLevel} {store2 : List TopLevel}
    (h : store_add store x = .ok store2) (hn : idsNodup store) : idsNodup store2 := by
  unfold store_add at h
  by_cases hc : ∃ y ∈ store, y.identification = x.identification
  · rw [if_pos hc] at h
    exact absurd h (by simp)
  · rw [if_neg hc] at h
    have h2 : store2 = store ++ [x] := by
      have := h
      simp only [Except.ok.injEq] at this
      exact this.symm
    subst h2
    have hx : x.identification ∉ store.map TopLevel.identification := by
      intro hmem
      rcases List.mem_map.mp hmem with ⟨y, hy, he⟩
      exact hc ⟨y, hy, he⟩
    unfold idsNodup
    rw [List.map_append]
    exact List.nodup_append.mpr ⟨hn, List.nodup_singleton _,
      fun a ha hb => by
        simp only [List.map_cons, List.map_nil, List.mem_singleton] at hb
        subst hb
        exact hx ha⟩

theorem process_elements_nodup (fuel : Nat)
    (ctor : Nat → Element → Bool → CRes TopLevel) (tn : String) (fs : Bool) :
    ∀ els store store2 L, idsNodup store →
      process_elements fuel els ctor tn fs store = (.ok store2, L) → idsNodup store2 := by
  intro els
  induction els with
  | nil =>
    intro store store2 L hn h
    have h2 : store = store2 := by
      have := congrArg Prod.fst h
      simpa [process_elements, cres_pure_def] using this
    rw [← h2]
    exact hn
  | cons e rest ih =>
    intro store store2 L hn h
    unfold process_elements at h
    obtain ⟨parsed, L1, L2, h1, h2, h3⟩ := bind_ok_elim h
    cases parsed with
    | none => exact ih store store2 L2 hn h2
    | some v =>
      obtain ⟨storeMid, L3, L4, h4, h5, h6⟩ := bind_ok_elim h2
      have hadd : store_add store v = .ok storeMid := by
        have := congrArg Prod.fst h4
        simpa [liftE] using this
      exact ih storeMid store2 L4 (store_add_nodup hadd hn) h5

theorem process_lists_nodup (fuel : Nat) (fs : Bool) :
    ∀ lists store store2 L, idsNodup store →
      process_lists fuel lists fs store = (.ok store2, L) → idsNodup store2 := by
  intro lists
  induction lists with
  | nil =>
    intro store store2 L hn h
    have h2 : store = store2 := by
      have := congrArg Prod.fst h
      simpa [process_lists, cres_pure_def] using this
    rw [← h2]
    exact hn
  | cons list_ rest ih =>
    intro store store2 L hn h
    unfold process_lists at h
    rcases hL : list_.tag.data.getLast? with _ | lastChar
    · rw [hL] at h
      exact absurd (congrArg Prod.fst h) (by simp [raiseErr])
    · rw [hL] at h
      rcases hec : element_constructors (String.mk list_.tag.data.dropLast) with _ | ⟨ctor, tn⟩
      · rcases hs : lastChar == 's' with _ | _
        all_goals simp only [hec, hs] at h
        all_goals cases fs with
          | false =>
            rw [if_pos (show (!false) = true from rfl)] at h
            exact absurd (congrArg Prod.fst h) (by simp [raiseErr])
          | true =>
            rw [if_neg (show ¬((!true) = true) from by simp)] at h
            obtain ⟨u, L1, L2, h1, h2, h3⟩ := bind_ok_elim h
            exact ih store store2 L2 hn h2
      · rcases hs : lastChar == 's' with _ | _
        · simp only [hec, hs] at h
          cases fs with
          | false =>
            rw [if_pos (show (!false) = true from rfl)] at h
            exact absurd (congrArg Prod.fst h) (by simp [raiseErr])
          | true =>
            rw [if_neg (show ¬((!true) = true) from by simp)] at h
            obtain ⟨u, L1, L2, h1, h2, h3⟩ := bind_ok_elim h
            exact ih store store2 L2 hn h2
        · simp only [hec, hs] at h
          obtain ⟨storeMid, L1, L2, h1, h2, h3⟩ := bind_ok_elim h
          exact ih storeMid store2 L2
            (process_elements_nodup fuel ctor tn fs _ store storeMid L1 hn h1) h2

/-- Any collection the driver returns, in either mode, has
pairwise-distinct Identifiers. -/
theorem read_xml_aas_file_nodup (fuel : Nat) (root : Element) (failsafe : Bool)
    (store : List TopLevel) (logs : List LogLine)
    (h : read_xml_aas_file fuel root failsafe = (.ok store, logs)) : idsNodup store :=
  process_lists_nodup fuel failsafe root.children [] store logs (by simp [idsNodup]) h

/-! ## Helper lemmas for the claim theorems. -/

/-- The shape of a rendered causal trace: the given lines joined by
`"\n -> "` separators, ending in the final frame. -/
def traceLines : List String → String → String
  | [], frame => frame
  | s :: rest, frame => s ++ "\n -> " ++ traceLines rest frame

theorem traceLines_append_singleton (xs : List String) (a frame : String) :
    traceLines (xs ++ [a]) frame = traceLines xs (a ++ "\n -> " ++ frame) := by
  induction xs with
  | nil => rfl
  | cons x xs ih =>
    simp only [List.cons_append, traceLines]
    exact congrArg (fun t => x ++ "\n -> " ++ t) ih

theorem foldl_traceLines (l : List PyError) (frame : String) :
    l.foldl (fun acc c => c.pyStr ++ "\n -> " ++ acc) frame =
      traceLines ((l.map PyError.pyStr).reverse) frame := by
  induction l generalizing frame with
  | nil => rfl
  | cons c l ih =>
    simp only [List.foldl_cons, List.map_cons, List.reverse_cons]
    rw [ih, traceLines_append_singleton]

/-- `renderTrace` renders the causal chain innermost cause first, each
line separated by `"\n -> "`, ending in the new frame. -/
theorem renderTrace_eq (e : PyError) (frame : String) :
    renderTrace e frame = traceLines ((e.causeChain.map PyError.pyStr).reverse) frame :=
  foldl_traceLines e.causeChain frame

theorem mapCommon_mapCommon (f g : SMEData → SMEData) (obj : SubmodelElement) :
    (obj.mapCommon g).mapCommon f = obj.mapCommon (fun c => f (g c)) := by
  cases obj <;> rfl

theorem mapCommon_id (obj : SubmodelElement) : obj.mapCommon (fun c => c) = obj := by
  cases obj <;> rfl

/-- The amendment step only rewrites the cross-cutting trait data of a
file: a successful amendment keeps the mime-type, the value and the
id-short. -/
theorem amend_sme_file (c : SMEData) (m : String) (v : Option String) (el : Element)
    (fs : Bool) (se : SubmodelElement) (L : List LogLine)
    (h : amend_sme (.file c m v) el fs = (Except.ok se, L)) :
    ∃ c2, se = SubmodelElement.file c2 m v ∧ c2.id_short = c.id_short := by
  unfold amend_sme at h
  obtain ⟨d, L1, L2, hd, h2, hL1⟩ := bind_ok_elim h
  obtain ⟨sid, L3, L4, hs, h4, hL2⟩ := bind_ok_elim h2
  obtain ⟨qs, L5, L6, hq, h6, hL3⟩ := bind_ok_elim h4
  have hse := congrArg Prod.fst h6
  simp only [cres_pure_def] at hse
  clear h h2 h4 hd hs hq hL1 hL2 hL3
  rcases d with _ | d0 <;> rcases sid with _ | s0 <;>
    rcases hcat : amend_category el with _ | c0 <;>
    rw [hcat] at hse <;>
    simp only [Except.ok.injEq] at hse <;>
    subst hse <;>
    simp only [SubmodelElement.mapCommon] <;>
    exact ⟨_, rfl, rfl⟩

/-- The amendment step keeps the ordered flag and the element list of a
collection. -/
theorem amend_sme_collection (c : SMEData) (o : Bool) (vs : List SubmodelElement)
    (el : Element) (fs : Bool) (se : SubmodelElement) (L : List LogLine)
    (h : amend_sme (.submodelElementCollection c o vs) el fs = (Except.ok se, L)) :
    ∃ c2, se = SubmodelElement.submodelElementCollection c2 o vs := by
  unfold amend_sme at h
  obtain ⟨d, L1, L2, hd, h2, hL1⟩ := bind_ok_elim h
  obtain ⟨sid, L3, L4, hs, h4, hL2⟩ := bind_ok_elim h2
  obtain ⟨qs, L5, L6, hq, h6, hL3⟩ := bind_ok_elim h4
  have hse := congrArg Prod.fst h6
  simp only [cres_pure_def] at hse
  clear h h2 h4 hd hs hq hL1 hL2 hL3
  rcases d with _ | d0 <;> rcases sid with _ | s0 <;>
    rcases hcat : amend_category el with _ | c0 <;>
    rw [hcat] at hse <;>
    simp only [Except.ok.injEq] at hse <;>
    subst hse <;>
    simp only [SubmodelElement.mapCommon] <;>
    exact ⟨_, rfl⟩

/-- `element` with its direct `mimeType` children removed. -/
def stripMimeType (el : Element) : Element :=
  Element.mk el.tag el.attrib el.text
    (el.children.filter (fun c => c.tag != NS_AAS ++ "mimeType"))

theorem find?_filter_of_imp {α : Type} (l : List α) (p q : α → Bool)
    (h : ∀ a, p a = true → q a = true) : (l.filter q).find? p = l.find? p := by
  induction l with
  | nil => rfl
  | cons a l ih =>
    by_cases hp : p a = true
    · have hq := h a hp
      simp [List.filter_cons, hq, List.find?, hp, ih]
    · rw [Bool.not_eq_true] at hp
      by_cases hq : q a = true
      · simp [List.filter_cons, hq, List.find?, hp, ih]
      · rw [Bool.not_eq_true] at hq
        simp [List.filter_cons, hq, List.find?, hp, ih]

theorem strip_find (el : Element) (t : String) (ht : (t == NS_AAS ++ "mimeType") = false) :
    (stripMimeType el).find t = el.find t := by
  unfold stripMimeType Element.find
  simp only [Element.children]
  exact find?_filter_of_imp el.children _ _ (fun a ha => by
    have : a.tag = t := by simpa using ha
    subst this
    simpa using ht)

theorem fst_bind {A B : Type} (a : CRes A) (f : A → CRes B) :
    (a >>= f).1 = match a.1 with
      | Except.ok x => (f x).1
      | Except.error e => Except.error e := by
  rcases a with ⟨r, L⟩
  cases r with
  | ok x => rw [cres_bind_def, cresBind_ok]
  | error e => rw [cres_bind_def, cresBind_error]

/-- In failsafe mode, `_failsafe_construct_multiple` returns exactly the
in-order successes, provided every failure among the inputs is of a
caught kind. -/
theorem multiple_lenient_filterMap {T : Type} (ctor : Element → Bool → CRes T)
    (tn : String) :
    ∀ elements : List Element,
      (∀ el ∈ elements, (ctor el true).1.isOk = true ∨
        ∃ e2, (ctor el true).1 = .error e2 ∧ e2.isCaught = true) →
      (failsafe_construct_multiple elements ctor tn true).1 =
        Except.ok (elements.filterMap (fun el => ((ctor el true).1).toOption)) := by
  intro elements
  induction elements with
  | nil => intro h; rfl
  | cons e rest ih =>
    intro h
    have hrest := ih (fun el hm => h el (List.mem_cons_of_mem _ hm))
    have hce := h e (List.mem_cons_self e rest)
    unfold failsafe_construct_multiple
    rcases hmr : failsafe_construct_multiple rest ctor tn true with ⟨rr, LL⟩
    rw [hmr] at hrest
    simp only at hrest
    subst hrest
    rcases hc : ctor e true with ⟨r, logs⟩
    cases r with
    | ok v =>
      have hfc : failsafe_construct (some e) ctor tn true = (Except.ok (some v), logs) := by
        simp [failsafe_construct, hc]
      simp [cres_bind_def, hfc, hmr, cresBind_ok, cres_pure_def, List.filterMap_cons, hc,
        Except.toOption]
    | error err =>
      rcases hce with hOk | ⟨e2, he2, hcaught2⟩
      · rw [hc] at hOk
        simp [Except.isOk, Except.toBool] at hOk
      · rw [hc] at he2
        simp only at he2
        have he3 : err = e2 := by
          simpa using he2
        subst he3
        have hfc : failsafe_construct (some e) ctor tn true =
            (Except.ok none,
             logs ++ [LogLine.error (err.typeName ++ ": " ++ renderTrace err
                ("while converting XML element with tag " ++ e.tag ++ " to type " ++ tn)),
              LogLine.error ("Failed to construct " ++ tn ++ "!")]) := by
          simp [failsafe_construct, hc, hcaught2]
        simp [cres_bind_def, hfc, hmr, cresBind_ok, cres_pure_def, List.filterMap_cons, hc,
          Except.toOption]

theorem filterMap_length_countP {T : Type} (g : Element → Option T) :
    ∀ l : List Element,
      (l.filterMap g).length + l.countP (fun el => (g el).isNone) = l.length := by
  intro l
  induction l with
  | nil => rfl
  | cons e rest ih =>
    cases hg : g e <;> simp [List.filterMap_cons, hg, List.countP_cons] <;> omega

/-- In non-failsafe mode, the first failing element makes the whole
sequence fail. -/
theorem multiple_strict_abort {T : Type} (ctor : Element → Bool → CRes T) (tn : String) :
    ∀ (pre : List Element) (bad : Element) (post : List Element),
      (∀ el ∈ pre, (ctor el false).1.isOk = true) →
      (ctor bad false).1.isOk = false →
      (failsafe_construct_multiple (pre ++ bad :: post) ctor tn false).1.isOk = false := by
  intro pre
  induction pre with
  | nil =>
    intro bad post _ hbad
    rw [List.nil_append]
    unfold failsafe_construct_multiple
    rcases hc : ctor bad false with ⟨r, logs⟩
    cases r with
    | ok v =>
      rw [hc] at hbad
      simp [Except.isOk, Except.toBool] at hbad
    | error err =>
      by_cases hcaught : err.isCaught = true
      · have hfc : failsafe_construct (some bad) ctor tn false =
            (Except.error (err.rewrap ("while converting XML element with tag " ++ bad.tag ++
              " to type " ++ tn)), logs) := by
          simp [failsafe_construct, hc, hcaught]
        simp [cres_bind_def, hfc, cresBind_error, Except.isOk, Except.toBool]
      · rw [Bool.not_eq_true] at hcaught
        have hfc : failsafe_construct (some bad) ctor tn false = (Except.error err, logs) := by
          simp [failsafe_construct, hc, hcaught]
        simp [cres_bind_def, hfc, cresBind_error, Except.isOk, Except.toBool]
  | cons p pre ih =>
    intro bad post hpre hbad
    have hp := hpre p (List.mem_cons_self p pre)
    rw [List.cons_append]
    unfold failsafe_construct_multiple
    rcases hc : ctor p false with ⟨r, logs⟩
    cases r with
    | error err =>
      rw [hc] at hp
      simp [Except.isOk, Except.toBool] at hp
    | ok v =>
      have hfc : failsafe_construct (some p) ctor tn false = (Except.ok (some v), logs) := by
        simp [failsafe_construct, hc]
      rcases hmr : failsafe_construct_multiple (pre ++ bad :: post) ctor tn false with ⟨rr, LL⟩
      have habort := ih bad post (fun el hm => hpre el (List.mem_cons_of_mem _ hm)) hbad
      rw [hmr] at habort
      simp only at habort
      cases rr with
      | ok _ => simp [Except.isOk, Except.toBool] at habort
      | error er =>
        simp [cres_bind_def, hfc, hmr, cresBind_ok, cresBind_error, Except.isOk, Except.toBool]

/-- C3: the failsafe construction wrapper: an absent node yields absent
without invoking the constructor; a caught constructor failure is
re-raised with exactly one new causal frame naming the node tag and the
target type in strict mode, and in failsafe mode is not propagated but
rendered to the log as the full causal chain (innermost cause first)
plus a final `Failed to construct <TypeName>!` line, yielding absent; a
constructor success is returned as-is. -/
theorem c3_failsafe_construct_contract
    {T1 T2 T3 T4 : Type}
    (ctor1 : Element → Bool → CRes T1) (el1 : Element) (tn1 : String)
    (e1 : PyError) (L1 : List LogLine)
    (h1 : ctor1 el1 false = (Except.error e1, L1)) (h1c : e1.isCaught = true)
    (ctor2 : Element → Bool → CRes T2) (el2 : Element) (tn2 : String)
    (e2 : PyError) (L2 : List LogLine)
    (h2 : ctor2 el2 true = (Except.error e2, L2)) (h2c : e2.isCaught = true)
    (ctor3 : Element → Bool → CRes T3) (el3 : Element) (tn3 : String) (fs3 : Bool)
    (v3 : T3) (L3 : List LogLine) (h3 : ctor3 el3 fs3 = (Except.ok v3, L3))
    (ctor4 : Element → Bool → CRes T4) (tn4 : String) (fs4 : Bool)
    (e5 : PyError) (frame5 : String) :
    failsafe_construct (some el1) ctor1 tn1 false =
      (Except.error (e1.rewrap ("while converting XML element with tag " ++ el1.tag ++
        " to type " ++ tn1)), L1) ∧
    failsafe_construct (some el2) ctor2 tn2 true =
      (Except.ok none, L2 ++
        [LogLine.error (e2.typeName ++ ": " ++ renderTrace e2
          ("while converting XML element with tag " ++ el2.tag ++ " to type " ++ tn2)),
         LogLine.error ("Failed to construct " ++ tn2 ++ "!")]) ∧
    failsafe_construct (some el3) ctor3 tn3 fs3 = (Except.ok (some v3), L3) ∧
    failsafe_construct none ctor4 tn4 fs4 = (Except.ok none, []) ∧
    renderTrace e5 frame5 = traceLines ((e5.causeChain.map PyError.pyStr).reverse) frame5 := by
  refine ⟨?_, ?_, ?_, rfl, renderTrace_eq e5 frame5⟩
  · simp [failsafe_construct, h1, h1c]
  · simp [failsafe_construct, h2, h2c]
  · simp [failsafe_construct, h3]

/-- C4: `_failsafe_construct_multiple` in failsafe mode yields exactly
the successfully constructed values, in input order, skipping the `k`
failed elements (`N - k` survivors); in non-failsafe mode the first
failing element aborts the whole sequence. -/
theorem c4_construct_multiple_contract {T : Type}
    (ctor : Element → Bool → CRes T) (tn : String) (elements : List Element)
    (hcaught : ∀ el ∈ elements, (ctor el true).1.isOk = true ∨
      ∃ e2, (ctor el true).1 = .error e2 ∧ e2.isCaught = true)
    (pre : List Element) (bad : Element) (post : List Element)
    (hpre : ∀ el ∈ pre, (ctor el false).1.isOk = true)
    (hbad : (ctor bad false).1.isOk = false) :
    (failsafe_construct_multiple elements ctor tn true).1 =
      Except.ok (elements.filterMap (fun el => ((ctor el true).1).toOption)) ∧
    (elements.filterMap (fun el => ((ctor el true).1).toOption)).length =
      elements.length - elements.countP (fun el => !(ctor el true).1.isOk) ∧
    (failsafe_construct_multiple (pre ++ bad :: post) ctor tn false).1.isOk = false := by
  refine ⟨multiple_lenient_filterMap ctor tn elements hcaught, ?_,
    multiple_strict_abort ctor tn pre bad post hpre hbad⟩
  have hsum := filterMap_length_countP (fun el => ((ctor el true).1).toOption) elements
  have hcong : elements.countP (fun el => (((ctor el true).1).toOption).isNone) =
      elements.countP (fun el => !(ctor el true).1.isOk) := by
    apply List.countP_congr
    intro el _
    cases (ctor el true).1 <;> simp [Except.toOption, Except.isOk, Except.toBool]
  rw [hcong] at hsum
  omega

/-- A successful `_child_text_mandatory` exposes the child and its
text. -/
theorem child_text_mandatory_ok_elim (parent : Element) (tag : String) (s : String)
    (L : List LogLine) (h : child_text_mandatory parent tag = (Except.ok s, L)) :
    ∃ child, parent.find tag = some child ∧ child.text = some s := by
  unfold child_text_mandatory at h
  obtain ⟨child, L1, L2, h1, h2, _⟩ := bind_ok_elim h
  refine ⟨child, ?_, ?_⟩
  · unfold get_child_mandatory at h1
    rcases hf : parent.find tag with _ | c
    · rw [hf] at h1
      exact absurd (congrArg Prod.fst h1) (by simp [raiseErr])
    · rw [hf] at h1
      have hc : c = child := by
        simpa [cres_pure_def] using congrArg Prod.fst h1
      exact congrArg some hc
  · unfold get_text_mandatory at h2
    rcases ht : child.text with _ | t
    · rw [ht] at h2
      exact absurd (congrArg Prod.fst h2) (by simp [raiseErr])
    · rw [ht] at h2
      have hts : t = s := by
        simpa [cres_pure_def] using congrArg Prod.fst h2
      exact congrArg some hts

/-- C5 (amended): an operation-variable whose mandatory wrapped value
list is empty fails with a `KeyError` in both modes, regardless of the
failsafe flag; with more than one element a warning is emitted and the
first element is used — the operation-variable is constructed exactly
when that first element constructs as a submodel element (always in
non-failsafe mode). -/
theorem c5_operation_variable_arity (fuel : Nat)
    (el0 : Element) (fs0 : Bool) (v0 : Element)
    (h0 : el0.find (NS_AAS ++ "value") = some v0) (h0e : v0.children = [])
    (el1 : Element) (fs1 : Bool) (v1 : Element) (c : Element) (cs : List Element)
    (h1 : el1.find (NS_AAS ++ "value") = some v1) (h1c : v1.children = c :: cs)
    (h1m : cs ≠ []) :
    construct_operation_variable (fuel + 1) el0 fs0 =
      (Except.error (.keyError "Value of operation variable has no submodel element!" none),
       []) ∧
    construct_operation_variable (fuel + 1) el1 fs1 =
      ((failsafe_construct_mandatory c (construct_submodel_element fuel)
          "SubmodelElement").1.map OperationVariable.mk,
       LogLine.warning ("Value of operation variable has more than one submodel element, " ++
         "using the first one...") ::
         (failsafe_construct_mandatory c (construct_submodel_element fuel)
           "SubmodelElement").2) := by
  constructor
  · simp [construct_operation_variable, get_child_mandatory, h0, h0e, cres_bind_def,
      cresBind_ok, cres_pure_def, raiseErr]
  · have hcs : cs.isEmpty = false := by
      cases cs with
      | nil => exact absurd rfl h1m
      | cons _ _ => rfl
    rcases hm : failsafe_construct_mandatory c (construct_submodel_element fuel)
        "SubmodelElement" with ⟨r, L⟩
    cases r <;>
      simp [construct_operation_variable, get_child_mandatory, h1, h1c, hcs, hm,
        cres_bind_def, cresBind_ok, cresBind_error, cres_pure_def, logWarning, Except.map]

/-- C7: the typed-reference constructor performs only a soft check: once
the key tuple is constructed, construction always succeeds with those
keys and the expected category, and an incompatible (or unclassed) last
key only adds a warning line. -/
theorem c7_typed_reference_soft_check (el : Element) (fs : Bool) (type_ : ModelClass)
    (keys : List Key) (L : List LogLine)
    (h : construct_key_tuple el fs = (Except.ok keys, L)) :
    construct_aas_reference el fs type_ =
      (Except.ok ⟨keys, type_⟩,
       L ++ (if lastKeyTypeMismatch keys type_ then
         [LogLine.warning (aas_reference_warning keys type_)] else [])) := by
  unfold construct_aas_reference
  by_cases hm : lastKeyTypeMismatch keys type_ = true
  · simp [cres_bind_def, h, cresBind_ok, hm, logWarning, cres_pure_def]
  · rw [Bool.not_eq_true] at hm
    simp [cres_bind_def, h, cresBind_ok, hm, cres_pure_def]

/-- C8 (amended): a successfully constructed Reference draws its keys,
in order, from the mandatory `keys` child's `key` elements — with no
lower bound on their number: the key sequence may be empty. -/
theorem c8_reference_keys_from_keys_child (el : Element) (fs : Bool) (r : Reference)
    (L : List LogLine) (h : construct_reference el fs = (Except.ok r, L)) :
    ∃ keysEl, el.find (NS_AAS ++ "keys") = some keysEl ∧
      (failsafe_construct_multiple (keysEl.findall (NS_AAS ++ "key")) construct_key "Key"
        fs).1 = Except.ok r.key := by
  unfold construct_reference construct_key_tuple at h
  obtain ⟨keys, L1, L2, h1, h2, hL⟩ := bind_ok_elim h
  obtain ⟨keysEl, L3, L4, h3, h4, hL2⟩ := bind_ok_elim h1
  have hfind : el.find (NS_AAS ++ "keys") = some keysEl := by
    unfold get_child_mandatory at h3
    rcases hf : el.find (NS_AAS ++ "keys") with _ | child
    · rw [hf] at h3
      exact absurd (congrArg Prod.fst h3) (by simp [raiseErr])
    · rw [hf] at h3
      have hc : child = keysEl := by
        simpa [cres_pure_def] using congrArg Prod.fst h3
      exact congrArg some hc
  have hr : r = ⟨keys⟩ := by
    have h5 := congrArg Prod.fst h2
    simp only [cres_pure_def, Except.ok.injEq] at h5
    exact h5.symm
  subst hr
  exact ⟨keysEl, hfind, by rw [h4]⟩

theorem strip_tag (e : Element) : (stripMimeType e).tag = e.tag := rfl

theorem strip_get_child (e : Element) (t : String)
    (ht : (t == NS_AAS ++ "mimeType") = false) :
    get_child_mandatory (stripMimeType e) t = get_child_mandatory e t := by
  unfold get_child_mandatory
  rw [strip_find e t ht]
  simp only [strip_tag]

theorem strip_child_text_idShort (e : Element) :
    child_text_mandatory (stripMimeType e) (NS_AAS ++ "idShort") =
      child_text_mandatory e (NS_AAS ++ "idShort") := by
  unfold child_text_mandatory
  rw [strip_get_child e _ (by decide)]

theorem strip_get_modeling_kind_kwarg (e : Element) :
    get_modeling_kind_kwarg (stripMimeType e) = get_modeling_kind_kwarg e := by
  unfold get_modeling_kind_kwarg
  rw [strip_find e _ (by decide)]

theorem strip_find_value (e : Element) :
    (stripMimeType e).find (NS_AAS ++ "value") = e.find (NS_AAS ++ "value") :=
  strip_find e _ (by decide)

theorem strip_amend_category (e : Element) :
    amend_category (stripMimeType e) = amend_category e := by
  unfold amend_category
  rw [strip_find e _ (by decide)]

theorem strip_amend_description (e : Element) (fs : Bool) :
    amend_description (stripMimeType e) fs = amend_description e fs := by
  unfold amend_description
  rw [strip_find e _ (by decide)]

theorem strip_amend_semantic_id (e : Element) (fs : Bool) :
    amend_semantic_id (stripMimeType e) fs = amend_semantic_id e fs := by
  unfold amend_semantic_id
  rw [strip_find e _ (by decide)]

theorem strip_amend_qualifiers (e : Element) (fs : Bool) :
    amend_qualifiers (stripMimeType e) fs = amend_qualifiers e fs := by
  unfold amend_qualifiers
  rw [strip_find e _ (by decide)]

theorem strip_amend_sme (obj : SubmodelElement) (e : Element) (fs : Bool) :
    amend_sme obj (stripMimeType e) fs = amend_sme obj e fs := by
  simp only [amend_sme, strip_amend_category, strip_amend_description,
    strip_amend_semantic_id, strip_amend_qualifiers]

/-- C9: a file node's mime-type field is populated from the text of its
`idShort` child — it always equals the File's id-short — and the
`mimeType` child is never read: removing every `mimeType` child leaves
the construction unchanged. -/
theorem c9_file_mime_type_from_id_short (fuel : Nat) (el : Element) (fs : Bool)
    (se : SubmodelElement) (L : List LogLine)
    (h : construct_file (fuel + 1) el fs = (Except.ok se, L))
    (fuel2 : Nat) (el2 : Element) (fs2 : Bool) :
    (∃ common value, se = SubmodelElement.file common common.id_short value ∧
      get_text_or_none (el.find (NS_AAS ++ "idShort")) = some common.id_short) ∧
    construct_file (fuel2 + 1) (stripMimeType el2) fs2 = construct_file (fuel2 + 1) el2 fs2 := by
  constructor
  · simp only [construct_file] at h
    obtain ⟨id_short, L1, L2, hid, h2, _⟩ := bind_ok_elim h
    obtain ⟨mime, L3, L4, hmime, h4, _⟩ := bind_ok_elim h2
    obtain ⟨kind, L5, L6, hkind, h6, _⟩ := bind_ok_elim h4
    obtain ⟨value, L7, L8, hval, h8, _⟩ := bind_ok_elim h6
    have hms : mime = id_short := by
      have h9 := hmime.symm.trans hid
      simpa using congrArg Prod.fst h9
    subst hms
    obtain ⟨c2, hse, hc2⟩ := amend_sme_file (mkSME mime kind) mime value el fs se L8 h8
    have hcid : c2.id_short = mime := hc2
    obtain ⟨child, hfind, htext⟩ := child_text_mandatory_ok_elim el (NS_AAS ++ "idShort")
      mime L3 hmime
    refine ⟨c2, value, ?_, ?_⟩
    · rw [hse, hcid]
    · rw [hcid]
      simp [get_text_or_none, hfind, htext]
  · simp only [construct_file, strip_child_text_idShort, strip_get_modeling_kind_kwarg,
      strip_find_value, strip_amend_sme]

/-- C10: the boolean fields accept any string: the collection's
`ordered` variant is selected exactly when the mandatory `ordered` text
lowercases to `"true"` (anything else silently selects the unordered
variant), and a key's `local` attribute is true exactly when its value
lowercases to `"true"`. -/
theorem c10_boolean_parsing_total
    (fuel : Nat) (el : Element) (fs : Bool) (se : SubmodelElement) (L : List LogLine)
    (ordEl : Element) (s : String)
    (hfind : el.find (NS_AAS ++ "ordered") = some ordEl) (htext : ordEl.text = some s)
    (h : construct_submodel_element_collection (fuel + 1) el fs = (Except.ok se, L))
    (kel : Element) (kfs : Bool) (k : Key) (kL : List LogLine) (sLocal : String)
    (hk : construct_key kel kfs = (Except.ok k, kL))
    (hl : kel.attrib.lookup "local" = some sLocal) :
    (∃ common value, se = SubmodelElement.submodelElementCollection common
      (pyLower s == "true") value) ∧
    k.is_local = (pyLower sLocal == "true") := by
  constructor
  · simp only [construct_submodel_element_collection] at h
    obtain ⟨orderedText, L1, L2, hot, h2, _⟩ := bind_ok_elim h
    have hct : child_text_mandatory el (NS_AAS ++ "ordered") = (Except.ok s, []) := by
      simp [child_text_mandatory, get_child_mandatory, get_text_mandatory, hfind, htext,
        cres_bind_def, cresBind_ok, cres_pure_def]
    have hots : orderedText = s := by
      have h9 := hot.symm.trans hct
      simpa using congrArg Prod.fst h9
    subst hots
    obtain ⟨id_short, L3, L4, hid, h4, _⟩ := bind_ok_elim h2
    obtain ⟨kind, L5, L6, hkind, h6, _⟩ := bind_ok_elim h4
    obtain ⟨value, L7, L8, hval, h8, _⟩ := bind_ok_elim h6
    obtain ⟨ses, L9, L10, hses, h10, _⟩ := bind_ok_elim h8
    obtain ⟨c2, hse⟩ := amend_sme_collection (mkSME id_short kind)
      (pyLower orderedText == "true") ses el fs se L10 h10
    exact ⟨c2, ses, hse⟩
  · unfold construct_key at hk
    obtain ⟨ty, L1, L2, hty, h2, _⟩ := bind_ok_elim hk
    obtain ⟨lcl, L3, L4, hlcl, h4, _⟩ := bind_ok_elim h2
    obtain ⟨value, L5, L6, hval, h6, _⟩ := bind_ok_elim h4
    obtain ⟨idt, L7, L8, hidt, h8, _⟩ := bind_ok_elim h6
    have hla : get_attrib_mandatory kel "local" = (Except.ok sLocal, []) := by
      simp [get_attrib_mandatory, hl, cres_pure_def]
    have hlcls : lcl = sLocal := by
      have h9 := hlcl.symm.trans hla
      simpa using congrArg Prod.fst h9
    subst hlcls
    have hkk : k = ⟨ty, pyLower lcl == "true", value, idt⟩ := by
      have h9 := congrArg Prod.fst h8
      simp only [cres_pure_def, Except.ok.injEq] at h9
      exact h9.symm
    rw [hkk]

/-- C1 (amended): the driver never silently overwrites an entity — any
collection it returns, in either mode, has pairwise-distinct
Identifiers; a duplicate instead raises the store's KeyError, which
nothing in the driver catches, so a duplicate document makes the decode
fail in both modes (see the counterexample for the failsafe-mode
abort). -/
theorem c1_store_identifiers_nodup (fuel : Nat) (root : Element) (failsafe : Bool)
    (store : List TopLevel) (logs : List LogLine)
    (h : read_xml_aas_file fuel root failsafe = (Except.ok store, logs)) :
    (store.map TopLevel.identification).Nodup :=
  read_xml_aas_file_nodup fuel root failsafe store logs h

/-- C2 (amended): whenever the non-failsafe decode succeeds, the
failsafe decode returns the identical object collection (and the
identical log); the claim's syntactic hypothesis is not sufficient — a
lexically invalid scalar value text is neither a missing mandatory field
nor an invalid enumerated value, yet makes the modes diverge (see the
counterexample). -/
theorem c2_strict_ok_implies_lenient_identical (fuel : Nat) (root : Element)
    (store : List TopLevel) (logs : List LogLine)
    (h : read_xml_aas_file fuel root false = (Except.ok store, logs)) :
    read_xml_aas_file fuel root true = (Except.ok store, logs) :=
  simOk_read_xml_aas_file fuel root store logs h

/-- C6: a root-level list group is accepted only when its tag ends in
the pluralizing `"s"` and the remaining stem is one of the four
top-level element tags; on mismatch the non-failsafe driver fails the
whole decode with the unexpected-top-level-list `TypeError`, while the
failsafe driver logs a warning, skips the group, and goes on with the
remaining groups over the collection assembled so far. -/
theorem c6_driver_list_tag_validation
    (fuel : Nat) (g : Element) (rest : List Element) (store : List TopLevel)
    (lastChar : Char) (hlast : g.tag.data.getLast? = some lastChar)
    (hmis : lastChar ≠ 's' ∨ element_constructors (String.mk g.tag.data.dropLast) = none)
    (fuel2 : Nat) (g2 : Element) (rest2 : List Element) (fs2 : Bool)
    (store2 : List TopLevel)
    (ctor : Nat → Element → Bool → CRes TopLevel) (tn : String)
    (hlast2 : g2.tag.data.getLast? = some 's')
    (hec2 : element_constructors (String.mk g2.tag.data.dropLast) = some (ctor, tn)) :
    process_lists fuel (g :: rest) false store =
      (Except.error (.typeError ("Unexpected top-level list " ++ g.tag ++ "!") none), []) ∧
    process_lists fuel (g :: rest) true store =
      ((process_lists fuel rest true store).1,
       LogLine.warning ("Unexpected top-level list " ++ g.tag ++ "!") ::
         (process_lists fuel rest true store).2) ∧
    process_lists fuel2 (g2 :: rest2) fs2 store2 =
      (process_elements fuel2 (g2.findall (String.mk g2.tag.data.dropLast)) ctor tn fs2
        store2) >>= (process_lists fuel2 rest2 fs2) := by
  have hred : ∀ (fs : Bool),
      process_lists fuel (g :: rest) fs store =
        (if (!fs) = true
         then raiseErr (.typeError ("Unexpected top-level list " ++ g.tag ++ "!") none)
         else do
           logWarning ("Unexpected top-level list " ++ g.tag ++ "!")
           process_lists fuel rest fs store) := by
    intro fs
    conv_lhs => rw [process_lists]
    rw [hlast]
    rcases hmis with hm | hm
    · have hs : (lastChar == 's') = false := by
        simpa using hm
      rcases hec : element_constructors (String.mk g.tag.data.dropLast) with _ | ⟨c0, t0⟩ <;>
        simp only [hec, hs]
    · rcases hs : lastChar == 's' with _ | _ <;> simp only [hm, hs]
  refine ⟨?_, ?_, ?_⟩
  · rw [hred false]
    rfl
  · rw [hred true]
    rcases hrest : process_lists fuel rest true store with ⟨rr, LL⟩
    simp [cres_bind_def, cresBind_ok, logWarning, hrest]
  · conv_lhs => rw [process_lists]
    rw [hlast2]
    simp only [hec2]
    rfl

/-! ## Concrete fixture documents for the counterexamples and
witnesses. -/

def c1cx_identification : Element :=
  Element.mk (NS_AAS ++ "identification") [("idType", "IRI")]
    (some "urn:example:asset:duplicate") []

def c1cx_asset : Element :=
  Element.mk (NS_AAS ++ "asset") [] none
    [Element.mk (NS_AAS ++ "kind") [] (some "Instance") [], c1cx_identification]

def c1cx_group : Element := Element.mk (NS_AAS ++ "assets") [] none [c1cx_asset]

/-- A document with the same asset Identifier in two list groups. -/
def c1cx_root : Element := Element.mk "aasenv" [] none [c1cx_group, c1cx_group]

/-- C1 counterexample: on a document with a duplicate top-level
Identifier across two list groups, the failsafe decode does not report
one error and return the first-seen entity — it raises the store's
duplicate KeyError with an empty log, exactly like the non-failsafe
decode. -/
theorem c1_duplicate_lenient_raises :
    (read_xml_aas_file 4 c1cx_root true).1 =
      Except.error (.keyError
        "An object with the same identification is already present in this store!" none) ∧
    (read_xml_aas_file 4 c1cx_root true).2 = [] ∧
    (read_xml_aas_file 4 c1cx_root false).1 =
      Except.error (.keyError
        "An object with the same identification is already present in this store!" none) := by
  exact ⟨rfl, rfl, rfl⟩

def c1w_asset : Element :=
  Element.mk (NS_AAS ++ "asset") [] none
    [Element.mk (NS_AAS ++ "kind") [] (some "Instance") [],
     Element.mk (NS_AAS ++ "identification") [("idType", "IRI")]
       (some "urn:example:asset:c1w") []]

def c1w_root : Element :=
  Element.mk "aasenv" [] none [Element.mk (NS_AAS ++ "assets") [] none [c1w_asset]]

def c1w_value : Asset :=
  ⟨.INSTANCE, ⟨"urn:example:asset:c1w", .IRI⟩, "", none, none, none, none, none⟩

theorem c1_store_identifiers_nodup_witness :
    (([TopLevel.asset c1w_value].map TopLevel.identification)).Nodup :=
  c1_store_identifiers_nodup 3 c1w_root true [TopLevel.asset c1w_value] [] rfl

def c2cx_identification : Element :=
  Element.mk (NS_AAS ++ "identification") [("idType", "IRI")]
    (some "urn:example:submodel:c2") []

def c2cx_property : Element :=
  Element.mk (NS_AAS ++ "property") [] none
    [Element.mk (NS_AAS ++ "idShort") [] (some "P1") [],
     Element.mk (NS_AAS ++ "valueType") [] (some "int") [],
     Element.mk (NS_AAS ++ "value") [] (some "abc") []]

def c2cx_submodel : Element :=
  Element.mk (NS_AAS ++ "submodel") [] none
    [c2cx_identification,
     Element.mk (NS_AAS ++ "submodelElements") [] none [c2cx_property]]

def c2cx_root : Element :=
  Element.mk "aasenv" [] none [Element.mk (NS_AAS ++ "submodels") [] none [c2cx_submodel]]

/-- The submodel the failsafe decode returns for `c2cx_root`: the
property was dropped, the submodel survives empty. -/
def c2cx_value : Submodel :=
  ⟨⟨"urn:example:submodel:c2", .IRI⟩, [], .INSTANCE, "", none, none, none, none, []⟩

/-- C2 counterexample: a document in which every mandatory child,
attribute and text demanded by the decoder is present and every
enumerated/mapped value is a key of its map — only the property's value
text `"abc"` is lexically invalid for `int` — yet the non-failsafe
decode fails while the failsafe decode returns a (different, non-empty)
collection. -/
theorem c2_mandatory_valid_but_modes_differ :
    c2cx_submodel.find (NS_AAS ++ "identification") = some c2cx_identification ∧
    c2cx_identification.text = some "urn:example:submodel:c2" ∧
    c2cx_identification.attrib.lookup "idType" = some "IRI" ∧
    (IDENTIFIER_TYPES_INVERSE.lookup "IRI").isSome = true ∧
    (c2cx_submodel.find (NS_AAS ++ "submodelElements")).isSome = true ∧
    get_text_or_none (c2cx_property.find (NS_AAS ++ "idShort")) = some "P1" ∧
    get_text_or_none (c2cx_property.find (NS_AAS ++ "valueType")) = some "int" ∧
    (XSD_TYPE_CLASSES.lookup "int").isSome = true ∧
    (read_xml_aas_file 4 c2cx_root false).1.isOk = false ∧
    (read_xml_aas_file 4 c2cx_root true).1 =
      Except.ok [TopLevel.submodel c2cx_value] := by
  exact ⟨rfl, rfl, rfl, rfl, rfl, rfl, rfl, rfl, by decide, rfl⟩

def c2w_asset : Element :=
  Element.mk (NS_AAS ++ "asset") [] none
    [Element.mk (NS_AAS ++ "kind") [] (some "Type") [],
     Element.mk (NS_AAS ++ "identification") [("idType", "Custom")]
       (some "asset-c2w") []]

def c2w_root : Element :=
  Element.mk "aasenv" [] none [Element.mk (NS_AAS ++ "assets") [] none [c2w_asset]]

def c2w_value : Asset :=
  ⟨.TYPE, ⟨"asset-c2w", .CUSTOM⟩, "", none, none, none, none, none⟩

theorem c2_strict_ok_implies_lenient_identical_witness :
    read_xml_aas_file 3 c2w_root true = (Except.ok [TopLevel.asset c2w_value], []) :=
  c2_strict_ok_implies_lenient_identical 3 c2w_root [TopLevel.asset c2w_value] [] rfl

/-- An identification node with text but no `idType` attribute: its
constructor fails with a caught `KeyError`. -/
def c3w_bad : Element :=
  Element.mk (NS_AAS ++ "identification") [] (some "urn:c3-bad") []

def c3w_good : Element :=
  Element.mk (NS_AAS ++ "identification") [("idType", "IRI")] (some "urn:c3") []

/-- The error `construct_identifier` raises on `c3w_bad`. -/
def c3w_err : PyError :=
  .keyError ("XML element " ++ NS_AAS ++ "identification" ++
    " has no attribute with name idType!") none

theorem c3_failsafe_construct_contract_witness :
    failsafe_construct (some c3w_bad) construct_identifier "Identifier" false =
      (Except.error (c3w_err.rewrap ("while converting XML element with tag " ++
        c3w_bad.tag ++ " to type " ++ "Identifier")), []) ∧
    failsafe_construct (some c3w_bad) construct_identifier "Identifier" true =
      (Except.ok none, [] ++
        [LogLine.error (c3w_err.typeName ++ ": " ++ renderTrace c3w_err
          ("while converting XML element with tag " ++ c3w_bad.tag ++
           " to type " ++ "Identifier")),
         LogLine.error ("Failed to construct " ++ "Identifier" ++ "!")]) ∧
    failsafe_construct (some c3w_good) construct_identifier "Identifier" true =
      (Except.ok (some ⟨"urn:c3", .IRI⟩), []) ∧
    failsafe_construct (none : Option Element) construct_identifier "Identifier" true =
      (Except.ok none, []) ∧
    renderTrace c3w_err "frame" =
      traceLines ((c3w_err.causeChain.map PyError.pyStr).reverse) "frame" :=
  c3_failsafe_construct_contract
    construct_identifier c3w_bad "Identifier" c3w_err [] rfl rfl
    construct_identifier c3w_bad "Identifier" c3w_err [] rfl rfl
    construct_identifier c3w_good "Identifier" true ⟨"urn:c3", .IRI⟩ [] rfl
    construct_identifier "Identifier" true c3w_err "frame"

def c4w_good1 : Element :=
  Element.mk (NS_AAS ++ "key")
    [("type", "Submodel"), ("local", "true"), ("idType", "IRI")] (some "urn:sm1") []

/-- A key node with no attributes at all: its constructor fails with a
caught `KeyError`. -/
def c4w_bad : Element := Element.mk (NS_AAS ++ "key") [] (some "bad") []

def c4w_good2 : Element :=
  Element.mk (NS_AAS ++ "key")
    [("type", "Asset"), ("local", "false"), ("idType", "Custom")] (some "a1") []

theorem c4_construct_multiple_contract_witness :
    (failsafe_construct_multiple [c4w_good1, c4w_bad, c4w_good2] construct_key "Key"
        true).1 =
      Except.ok ([c4w_good1, c4w_bad, c4w_good2].filterMap
        (fun el => ((construct_key el true).1).toOption)) ∧
    ([c4w_good1, c4w_bad, c4w_good2].filterMap
        (fun el => ((construct_key el true).1).toOption)).length =
      [c4w_good1, c4w_bad, c4w_good2].length -
        [c4w_good1, c4w_bad, c4w_good2].countP (fun el => !(construct_key el true).1.isOk) ∧
    (failsafe_construct_multiple ([c4w_good1] ++ c4w_bad :: [c4w_good2]) construct_key
      "Key" false).1.isOk = false :=
  c4_construct_multiple_contract construct_key "Key" [c4w_good1, c4w_bad, c4w_good2]
    (by
      intro el hel
      simp only [List.mem_cons, List.not_mem_nil, or_false] at hel
      rcases hel with rfl | rfl | rfl
      · exact Or.inl rfl
      · exact Or.inr ⟨_, rfl, rfl⟩
      · exact Or.inl rfl)
    [c4w_good1] c4w_bad [c4w_good2]
    (by
      intro el hel
      simp only [List.mem_singleton] at hel
      subst hel
      rfl)
    rfl

def c5w_v0 : Element := Element.mk (NS_AAS ++ "value") [] none []

def c5w_el0 : Element := Element.mk (NS_AAS ++ "operationVariable") [] none [c5w_v0]

def c5w_first : Element :=
  Element.mk (NS_AAS ++ "capability") [] none
    [Element.mk (NS_AAS ++ "idShort") [] (some "CapA") []]

def c5w_second : Element :=
  Element.mk (NS_AAS ++ "capability") [] none
    [Element.mk (NS_AAS ++ "idShort") [] (some "CapB") []]

def c5w_v1 : Element := Element.mk (NS_AAS ++ "value") [] none [c5w_first, c5w_second]

def c5w_el1 : Element := Element.mk (NS_AAS ++ "operationVariable") [] none [c5w_v1]

theorem c5_operation_variable_arity_witness :
    construct_operation_variable (1 + 1) c5w_el0 true =
      (Except.error (.keyError "Value of operation variable has no submodel element!" none),
       []) ∧
    construct_operation_variable (1 + 1) c5w_el1 true =
      ((failsafe_construct_mandatory c5w_first (construct_submodel_element 1)
          "SubmodelElement").1.map OperationVariable.mk,
       LogLine.warning ("Value of operation variable has more than one submodel element, " ++
         "using the first one...") ::
         (failsafe_construct_mandatory c5w_first (construct_submodel_element 1)
           "SubmodelElement").2) :=
  c5_operation_variable_arity 1 c5w_el0 true c5w_v0 rfl rfl c5w_el1 true c5w_v1 c5w_first
    [c5w_second] rfl rfl (List.cons_ne_nil c5w_second [])

/-- A value list with two elements whose first is not a valid submodel
element; the second is a perfectly fine capability. -/
def c5cx_bad : Element := Element.mk (NS_AAS ++ "garbage") [] none []

def c5cx_good : Element :=
  Element.mk (NS_AAS ++ "capability") [] none
    [Element.mk (NS_AAS ++ "idShort") [] (some "Cap") []]

def c5cx_el : Element :=
  Element.mk (NS_AAS ++ "operationVariable") [] none
    [Element.mk (NS_AAS ++ "value") [] none [c5cx_bad, c5cx_good]]

/-- C5 counterexample: with more than one element in the wrapped value
list, construction does not always succeed using the first element with
only a warning — the wrapped element is constructed in forced
non-failsafe mode, so a defective first element fails the whole
operation-variable even in failsafe mode, after the warning was
logged. -/
theorem c5_two_values_first_invalid_fails :
    (construct_operation_variable 2 c5cx_el true).1.isOk = false ∧
    (construct_operation_variable 2 c5cx_el true).2 =
      [LogLine.warning ("Value of operation variable has more than one submodel element, " ++
        "using the first one...")] :=
  ⟨rfl, rfl⟩

/-- A list group whose stem `foo` is no top-level element tag. -/
def c6w_bad : Element := Element.mk (NS_AAS ++ "foos") [] none []

def c6w_good : Element := Element.mk (NS_AAS ++ "assets") [] none []

theorem c6_driver_list_tag_validation_witness :
    process_lists 2 [c6w_bad] false [] =
      (Except.error (.typeError ("Unexpected top-level list " ++ c6w_bad.tag ++ "!") none),
       []) ∧
    process_lists 2 [c6w_bad] true [] =
      ((process_lists 2 ([] : List Element) true []).1,
       LogLine.warning ("Unexpected top-level list " ++ c6w_bad.tag ++ "!") ::
         (process_lists 2 ([] : List Element) true []).2) ∧
    process_lists 2 [c6w_good] true [] =
      (process_elements 2 (c6w_good.findall (String.mk c6w_good.tag.data.dropLast))
        construct_asset_top "Asset" true []) >>= (process_lists 2 ([] : List Element) true) :=
  c6_driver_list_tag_validation 2 c6w_bad [] [] 's' rfl (Or.inr rfl) 2 c6w_good [] true []
    construct_asset_top "Asset" rfl rfl

/-- A reference whose single key is a `GlobalReference`, pointed at the
`Submodel` target type: the soft check cannot classify it and warns. -/
def c7w_key : Element :=
  Element.mk (NS_AAS ++ "key")
    [("type", "GlobalReference"), ("local", "false"), ("idType", "IRI")] (some "urn:g") []

def c7w_el : Element :=
  Element.mk (NS_AAS ++ "reference") [] none
    [Element.mk (NS_AAS ++ "keys") [] none [c7w_key]]

def c7w_keys : List Key := [⟨.GLOBAL_REFERENCE, false, "urn:g", .IRI⟩]

theorem c7_typed_reference_soft_check_witness :
    construct_aas_reference c7w_el true .Submodel =
      (Except.ok ⟨c7w_keys, .Submodel⟩,
       [] ++ (if lastKeyTypeMismatch c7w_keys .Submodel then
         [LogLine.warning (aas_reference_warning c7w_keys .Submodel)] else [])) :=
  c7_typed_reference_soft_check c7w_el true .Submodel c7w_keys [] rfl

def c8w_key : Element :=
  Element.mk (NS_AAS ++ "key")
    [("type", "Submodel"), ("local", "true"), ("idType", "IRI")] (some "urn:sm") []

def c8w_el : Element :=
  Element.mk (NS_AAS ++ "reference") [] none
    [Element.mk (NS_AAS ++ "keys") [] none [c8w_key]]

theorem c8_reference_keys_from_keys_child_witness :
    ∃ keysEl, c8w_el.find (NS_AAS ++ "keys") = some keysEl ∧
      (failsafe_construct_multiple (keysEl.findall (NS_AAS ++ "key")) construct_key "Key"
        true).1 = Except.ok (Reference.mk [⟨.SUBMODEL, true, "urn:sm", .IRI⟩]).key :=
  c8_reference_keys_from_keys_child c8w_el true ⟨[⟨.SUBMODEL, true, "urn:sm", .IRI⟩]⟩ []
    rfl

/-- A reference node whose mandatory `keys` child holds no `key`
elements at all. -/
def c8cx_el : Element :=
  Element.mk (NS_AAS ++ "reference") [] none
    [Element.mk (NS_AAS ++ "keys") [] none []]

/-- C8 counterexample: a Reference with an empty key sequence is
successfully constructed in both modes — the decoder enforces no lower
bound on the number of keys, refuting the non-emptiness invariant. -/
theorem c8_empty_keys_reference_ok :
    construct_reference c8cx_el false = (Except.ok ⟨[]⟩, []) ∧
    construct_reference c8cx_el true = (Except.ok ⟨[]⟩, []) ∧
    construct_aas_reference c8cx_el false .Submodel = (Except.ok ⟨[], .Submodel⟩, []) :=
  ⟨rfl, rfl, rfl⟩

/-- A file node carrying a `mimeType` child whose text differs from the
id-short. -/
def c9w_el : Element :=
  Element.mk (NS_AAS ++ "file") [] none
    [Element.mk (NS_AAS ++ "idShort") [] (some "Document") [],
     Element.mk (NS_AAS ++ "mimeType") [] (some "application/pdf") [],
     Element.mk (NS_AAS ++ "value") [] (some "/files/doc.pdf") []]

/-- What the decoder builds from `c9w_el`: the mime-type field holds the
id-short text, not `application/pdf`. -/
def c9w_se : SubmodelElement :=
  .file ⟨"Document", .INSTANCE, none, none, none, []⟩ "Document" (some "/files/doc.pdf")

theorem c9_file_mime_type_from_id_short_witness :
    (∃ common value, c9w_se = SubmodelElement.file common common.id_short value ∧
      get_text_or_none (c9w_el.find (NS_AAS ++ "idShort")) = some common.id_short) ∧
    construct_file (0 + 1) (stripMimeType c9w_el) true = construct_file (0 + 1) c9w_el true :=
  c9_file_mime_type_from_id_short 0 c9w_el true c9w_se [] rfl 0 c9w_el true

/-- A collection whose `ordered` text is `TRUE` (not the lexical
`true`). -/
def c10w_el : Element :=
  Element.mk (NS_AAS ++ "submodelElementCollection") [] none
    [Element.mk (NS_AAS ++ "ordered") [] (some "TRUE") [],
     Element.mk (NS_AAS ++ "idShort") [] (some "Coll") [],
     Element.mk (NS_AAS ++ "value") [] none []]

def c10w_se : SubmodelElement :=
  .submodelElementCollection ⟨"Coll", .INSTANCE, none, none, none, []⟩ true []

/-- A key whose `local` attribute is `False` (not the lexical
`false`). -/
def c10w_key : Element :=
  Element.mk (NS_AAS ++ "key")
    [("type", "Submodel"), ("local", "False"), ("idType", "IRI")] (some "urn:k10") []

theorem c10_boolean_parsing_total_witness :
    (∃ common value, c10w_se = SubmodelElement.submodelElementCollection common
      (pyLower "TRUE" == "true") value) ∧
    (Key.mk .SUBMODEL false "urn:k10" .IRI).is_local = (pyLower "False" == "true") :=
  c10_boolean_parsing_total 0 c10w_el true c10w_se [] (Element.mk (NS_AAS ++ "ordered") []
      (some "TRUE") []) "TRUE" rfl rfl rfl
    c10w_key true ⟨.SUBMODEL, false, "urn:k10", .IRI⟩ [] "False" rfl rfl

end AasXml
